import Mathlib

/-!
Verification of the parameter-resolution and compliance-orchestration logic of
the AzureAgent repository (src/agent/utils.py and src/agent/azure.py), as a
shallow embedding in Lean 4.

Modelling conventions:
* Python strings are Lean `String`; Python `str.lower`, `str.strip`,
  `str.split` and the `in` substring test are modelled by executable helpers
  defined below on the underlying character lists.
* Python dicts are association lists with insert-or-overwrite semantics
  (`dictInsert`), which keeps first-insertion order exactly as CPython does.
* External effects (subprocess runs, file reads, Azure lookups) are inputs:
  each embedded operation takes the observable outcome of its external calls
  as an explicit environment argument, and records the external invocations
  it performs in an event trace.
* Machine integers do not occur: the network arithmetic of
  calculate_next_subnet_address stays far below 2^32 and is modelled on Nat.
-/

namespace AzureAgent

/-! ## String helpers (Python semantics) -/

/-- ASCII whitespace, the characters Python's `\s`, `str.strip` and
`str.split()` treat as blanks (for the ASCII range relevant here). -/
def isSpace (c : Char) : Bool :=
  c = ' ' || c = '\t' || c = '\n' || c = '\r' || c = '\x0b' || c = '\x0c'

/-- Does `pat` stand at the head of `l`? -/
def headMatches : List Char → List Char → Bool
  | [], _ => true
  | _ :: _, [] => false
  | a :: as, b :: bs => a = b && headMatches as bs

/-- Python's substring test `needle in hay` on character lists. -/
def occursIn (needle : List Char) : List Char → Bool
  | [] => headMatches needle []
  | hay@(_ :: rest) => headMatches needle hay || occursIn needle rest

/-- Python's substring test on strings. -/
def strOccurs (needle hay : String) : Bool :=
  occursIn needle.data hay.data

/-- Python `str.strip()` on character lists. -/
def stripCL (l : List Char) : List Char :=
  ((l.dropWhile isSpace).reverse.dropWhile isSpace).reverse

/-- Python `str.strip()`. -/
def pyStrip (s : String) : String :=
  ⟨stripCL s.data⟩

/-- Python `str.lower()` (ASCII-relevant part). -/
def pyLower (s : String) : String :=
  ⟨s.data.map Char.toLower⟩

/-- Python `str.split(sep)` for a one-character separator. -/
def splitOnChar (sep : Char) : List Char → List (List Char)
  | [] => [[]]
  | c :: cs =>
    if c = sep then [] :: splitOnChar sep cs
    else
      match splitOnChar sep cs with
      | [] => [[c]]
      | l :: ls => (c :: l) :: ls

/-- Python `"sep".join(parts)`. -/
def strJoin (sep : String) : List String → String
  | [] => ""
  | [x] => x
  | x :: xs => x ++ sep ++ strJoin sep xs

/-- Python `int(s)` restricted to the nonnegative decimal numerals that the
embedded call sites receive; anything else raises in Python, which the
embedding surfaces as `none`. -/
def parseNat (s : String) : Option Nat :=
  let t := stripCL s.data
  if t ≠ [] ∧ t.all Char.isDigit then
    some (t.foldl (fun acc c => acc * 10 + (c.toNat - 48)) 0)
  else none

/-! ## Python dict as an ordered association list -/

/-- CPython dict assignment `m[k] = v`: overwrite in place, else append. -/
def dictInsert (m : List (String × α)) (k : String) (v : α) : List (String × α) :=
  if m.any (fun p => p.1 = k) then
    m.map (fun p => if p.1 = k then (k, v) else p)
  else m ++ [(k, v)]

/-- Python `k in m` for a dict. -/
def dictHas (m : List (String × α)) (k : String) : Bool :=
  m.any (fun p => p.1 = k)

/-- Python `m.get(k)` (first binding; keys built by `dictInsert` are unique). -/
def dictGet (m : List (String × α)) (k : String) : Option α :=
  (m.find? (fun p => p.1 = k)).map (fun p => p.2)

/-! ## Constants from src/agent/utils.py -/

/-- ERROR_KEYWORDS (utils.py line 17). -/
def ERROR_KEYWORDS : List String := ["Error", "error", "FAILED", "Failed", "failed"]

/-- TEMPLATE_MAP (utils.py lines 134-165). -/
def TEMPLATE_MAP : List (String × String) := [
  ("storage-account", "templates/storage-account.bicep"),
  ("key-vault", "templates/azure-key-vaults.bicep"),
  ("openai", "templates/azure-openai.bicep"),
  ("ai-search", "templates/ai-search.bicep"),
  ("ai-foundry", "templates/ai-foundry.bicep"),
  ("cosmos-db", "templates/cosmos-db.bicep"),
  ("log-analytics", "templates/log-analytics.bicep"),
  ("uami", "templates/user-assigned-managed-identity.bicep"),
  ("user-assigned-managed-identity", "templates/user-assigned-managed-identity.bicep"),
  ("nsp", "templates/network-security-perimeter.bicep"),
  ("network-security-perimeter", "templates/network-security-perimeter.bicep"),
  ("fabric-capacity", "templates/fabric-capacity.bicep"),
  ("container-registry", "templates/container-registry.bicep"),
  ("acr", "templates/container-registry.bicep"),
  ("function-app", "templates/function-app.bicep"),
  ("public-ip", "templates/public-ip.bicep"),
  ("pip", "templates/public-ip.bicep"),
  ("data-factory", "templates/azure-data-factory.bicep"),
  ("azure-data-factory", "templates/azure-data-factory.bicep"),
  ("adf", "templates/azure-data-factory.bicep"),
  ("synapse", "templates/azure-synapse-analytics.bicep"),
  ("azure-synapse-analytics", "templates/azure-synapse-analytics.bicep"),
  ("nsg", "templates/network-security-group.bicep"),
  ("network-security-group", "templates/network-security-group.bicep"),
  ("vnet", "templates/virtual-network.bicep"),
  ("virtual-network", "templates/virtual-network.bicep"),
  ("subnet", "templates/subnet.bicep"),
  ("private-endpoint", "templates/private-endpoint.bicep"),
  ("pe", "templates/private-endpoint.bicep"),
  ("logic-app", "templates/logic-app.bicep")]

/-- Membership of a resource type in TEMPLATE_MAP. -/
def inTemplateMap (rt : String) : Bool :=
  TEMPLATE_MAP.any (fun p => p.1 = rt)

/-! ## Template Parameter Introspector (utils.py parse_bicep_parameters) -/

/-- Python's word characters, for `\w`. -/
def isWordChar (c : Char) : Bool :=
  c.isAlphanum || c = '_'

/-- The tail matcher of the regexes of the form `lit\s*(.+)`: a greedy `\s*`
with backtracking followed by a greedy `(.+)` (one or more non-newline
characters), returning the captured group. -/
def matchTail : List Char → Option (List Char)
  | [] => none
  | c :: cs =>
    if isSpace c then
      match matchTail cs with
      | some g => some g
      | none => if c = '\n' then none else some ((c :: cs).takeWhile (fun d => d ≠ '\n'))
    else some ((c :: cs).takeWhile (fun d => d ≠ '\n'))

/-- One line of parse_bicep_parameters (utils.py lines 667-675): the stripped
line must start with `param `, and the anchored regex
`param\s+(\w+)\s+[^=\n]+(?:=\s*(.+))?` yields the name and the optional raw
default expression.  Any line that does not match is skipped (`none`). -/
def parseParamLine (line : String) : Option (String × Option String) :=
  let l := stripCL line.data
  if ¬ headMatches "param ".data l then none
  else
    -- anchored match: literal "param", then \s+
    let afterKw := l.drop 5
    let ws1 := afterKw.takeWhile isSpace
    if ws1 = [] then none
    else
      let t1 := afterKw.dropWhile isSpace
      let name := t1.takeWhile isWordChar
      if name = [] then none
      else
        let t2 := t1.dropWhile isWordChar
        -- `\s+[^=\n]+` after the name: with backtracking, at least one
        -- whitespace character followed by at least one character that is not
        -- '=' (whitespace itself qualifies for the second class, so the
        -- combined requirement is a whitespace head and two or more
        -- characters before the first '='; the stripped line holds no '\n').
        let wsLen := (t2.takeWhile isSpace).length
        let bodyLen := (t2.takeWhile (fun c => c ≠ '=')).length
        if wsLen = 0 ∨ bodyLen < 2 then none
        else
          match t2.drop bodyLen with
          | '=' :: rest =>
            -- optional group (?:=\s*(.+))? : when its inner match fails the
            -- group matches empty and group(2) is None.
            some (⟨name⟩, (matchTail rest).map (fun g => (⟨stripCL g⟩ : String)))
          | _ => some (⟨name⟩, none)

/-- parse_bicep_parameters (utils.py lines 662-678), with the template file's
lines as input (the file itself is environment).  An unreadable file is the
empty line list.  Each parsed parameter is recorded as
`(required, default_raw)` with `required = (default_raw = none)`. -/
def parse_bicep_parameters (lines : List String) : List (String × (Bool × Option String)) :=
  lines.foldl (fun params line =>
    match parseParamLine line with
    | some (name, defaultRaw) => dictInsert params name (defaultRaw.isNone, defaultRaw)
    | none => params) []

/-! ## Parameter Validator (utils.py validate_bicep_parameters) -/

/-- The per-resource-type auto-calculated exclusion list
(utils.py lines 690-694). -/
def autoCalculated (resource_type : String) : List String :=
  if resource_type = "subnet" then ["subnetStartingAddress"]
  else if resource_type = "fabric-capacity" then ["location"]
  else []

/-- Is `p` supplied with a value that is neither Python `None` nor `""`?
(`provided[p] in (None, "")` with absence, utils.py line 696). -/
def suppliedPresent (provided : List (String × Option String)) (p : String) : Bool :=
  match dictGet provided p with
  | none => false
  | some none => false
  | some (some v) => v ≠ ""

/-- The `missing` list of validate_bicep_parameters (utils.py line 696). -/
def missingParams (resource_type : String)
    (params : List (String × (Bool × Option String)))
    (provided : List (String × Option String)) : List String :=
  (params.filter (fun e =>
    e.2.1 && !((autoCalculated resource_type).contains e.1)
      && !(suppliedPresent provided e.1))).map (fun e => e.1)

/-- validate_bicep_parameters (utils.py lines 681-699).  The template file on
disk is environment: `templateExists` is the `os.path.exists` outcome and
`templateLines` its content. -/
def validate_bicep_parameters (resource_type : String)
    (templateExists : Bool) (templateLines : List String)
    (provided : List (String × Option String)) :
    Bool × String × List (String × (Bool × Option String)) :=
  if ¬ inTemplateMap resource_type then
    (false, "Unknown resource_type '" ++ resource_type ++ "'.", [])
  else if ¬ templateExists then
    (false, "Template not found", [])
  else
    let params := parse_bicep_parameters templateLines
    let missing := missingParams resource_type params provided
    if missing ≠ [] then
      (false, "Missing required parameters: " ++ strJoin ", " missing, params)
    else (true, "OK", params)

/-! ## Lemmas on the introspected schema -/

theorem contains_eq_true_iff (l : List String) (a : String) :
    l.contains a = true ↔ a ∈ l :=
  List.elem_iff

theorem contains_eq_false_iff (l : List String) (a : String) :
    l.contains a = false ↔ a ∉ l := by
  constructor
  · intro h hmem
    rw [(contains_eq_true_iff l a).mpr hmem] at h
    cases h
  · intro h
    cases hb : l.contains a
    · rfl
    · exact absurd ((contains_eq_true_iff l a).mp hb) h

theorem mem_dictInsert {α : Type} {m : List (String × α)} {k : String} {v : α}
    {x : String × α} (h : x ∈ dictInsert m k v) : x = (k, v) ∨ x ∈ m := by
  unfold dictInsert at h
  by_cases hc : m.any (fun p => p.1 = k) = true
  · rw [if_pos hc, List.mem_map] at h
    rcases h with ⟨p, hp, hx⟩
    by_cases hk : p.1 = k
    · rw [if_pos hk] at hx
      exact Or.inl hx.symm
    · rw [if_neg hk] at hx
      exact Or.inr (hx ▸ hp)
  · rw [if_neg hc, List.mem_append] at h
    rcases h with h | h
    · exact Or.inr h
    · rw [List.mem_singleton] at h
      exact Or.inl h

theorem parse_bicep_parameters_invariant (lines : List String)
    {e : String × (Bool × Option String)}
    (h : e ∈ parse_bicep_parameters lines) : e.2.1 = e.2.2.isNone := by
  suffices H : ∀ (ls : List String) (acc : List (String × (Bool × Option String))),
      (∀ x ∈ acc, x.2.1 = x.2.2.isNone) →
      ∀ x ∈ ls.foldl (fun params line =>
        match parseParamLine line with
        | some (name, defaultRaw) => dictInsert params name (defaultRaw.isNone, defaultRaw)
        | none => params) acc, x.2.1 = x.2.2.isNone by
    exact H lines [] (by intro x hx; simp at hx) e h
  intro ls
  induction ls with
  | nil => intro acc hacc x hx; exact hacc x hx
  | cons l rest ih =>
    intro acc hacc x hx
    simp only [List.foldl_cons] at hx
    refine ih _ ?_ x hx
    intro y hy
    cases hpl : parseParamLine l with
    | none => rw [hpl] at hy; exact hacc y hy
    | some nd =>
      rw [hpl] at hy
      rcases mem_dictInsert hy with h1 | h1
      · subst h1; rfl
      · exact hacc y h1

/-- C6: for every template file, every entry of the ParameterSchema produced
by parse_bicep_parameters has `required = true` exactly when its default
expression is absent: a parameter recorded with a default is never required,
and one with no default is always required. -/
theorem spec_C6_required_iff_no_default (lines : List String)
    (name : String) (req : Bool) (d : Option String)
    (h : (name, (req, d)) ∈ parse_bicep_parameters lines) :
    req = true ↔ d = none := by
  have := parse_bicep_parameters_invariant lines h
  simp only at this
  subst this
  cases d <;> simp

theorem spec_C6_witness :
    (("foo", (true, (none : Option String))) ∈ parse_bicep_parameters ["param foo string"])
    ∧ (true = true ↔ (none : Option String) = none) := by
  constructor
  · decide
  · exact spec_C6_required_iff_no_default ["param foo string"] "foo" true none (by decide)

/-! ## C1: validate_bicep_parameters -/

theorem mem_missingParams (rt : String)
    (params : List (String × (Bool × Option String)))
    (provided : List (String × Option String)) (p : String) :
    p ∈ missingParams rt params provided ↔
      ∃ d, (p, (true, d)) ∈ params ∧ p ∉ autoCalculated rt ∧
        suppliedPresent provided p = false := by
  unfold missingParams
  rw [List.mem_map]
  constructor
  · rintro ⟨⟨a, b, c⟩, hmem, hfst⟩
    rw [List.mem_filter] at hmem
    obtain ⟨he, hpred⟩ := hmem
    simp only [Bool.and_eq_true, Bool.not_eq_true'] at hpred
    obtain ⟨⟨h1, h2⟩, h3⟩ := hpred
    simp only at h1 h2 h3 hfst
    subst hfst
    subst h1
    exact ⟨c, he, (contains_eq_false_iff _ _).mp h2, h3⟩
  · rintro ⟨d, hmem, hauto, hsup⟩
    refine ⟨(p, (true, d)), ?_, rfl⟩
    rw [List.mem_filter]
    refine ⟨hmem, ?_⟩
    simp only [Bool.and_eq_true, Bool.not_eq_true']
    exact ⟨⟨trivial, (contains_eq_false_iff _ _).mpr hauto⟩, hsup⟩

theorem missingParams_eq_nil_iff (rt : String)
    (params : List (String × (Bool × Option String)))
    (provided : List (String × Option String)) :
    missingParams rt params provided = [] ↔
      ∀ e ∈ params, e.2.1 = true → e.1 ∉ autoCalculated rt →
        suppliedPresent provided e.1 = true := by
  unfold missingParams
  rw [List.map_eq_nil_iff, List.filter_eq_nil_iff]
  constructor
  · intro h e he hreq hauto
    have hne := h e he
    simp only [Bool.and_eq_true, Bool.not_eq_true'] at hne
    by_contra hsup
    apply hne
    refine ⟨⟨hreq, (contains_eq_false_iff _ _).mpr hauto⟩, ?_⟩
    cases hb : suppliedPresent provided e.1
    · rfl
    · exact absurd hb hsup
  · intro h e he
    simp only [Bool.and_eq_true, Bool.not_eq_true']
    rintro ⟨⟨hreq, hauto⟩, hsup⟩
    have := h e he hreq ((contains_eq_false_iff _ _).mp hauto)
    rw [this] at hsup
    cases hsup

/-- C1: for every resource type in the template map (with its template file
present, the file content being environment) and every supplied parameter
map, validate_bicep_parameters succeeds exactly when every required,
non-auto-calculated parameter of the introspected schema is supplied with a
value that is neither None nor the empty string; the missing list it reports
contains exactly the required, non-auto-calculated parameters that are absent
or empty, never an auto-calculated one, and the failure message enumerates
exactly that list. -/
theorem spec_C1_validate_bicep_parameters (rt : String)
    (templateLines : List String) (provided : List (String × Option String))
    (hrt : inTemplateMap rt = true) :
    ((validate_bicep_parameters rt true templateLines provided).1 = true ↔
      ∀ e ∈ parse_bicep_parameters templateLines, e.2.1 = true →
        e.1 ∉ autoCalculated rt → suppliedPresent provided e.1 = true)
    ∧ (∀ p, p ∈ missingParams rt (parse_bicep_parameters templateLines) provided ↔
        ∃ d, (p, (true, d)) ∈ parse_bicep_parameters templateLines ∧
          p ∉ autoCalculated rt ∧ suppliedPresent provided p = false)
    ∧ (∀ p ∈ autoCalculated rt,
        p ∉ missingParams rt (parse_bicep_parameters templateLines) provided)
    ∧ ((validate_bicep_parameters rt true templateLines provided).1 = false →
        (validate_bicep_parameters rt true templateLines provided).2.1 =
          "Missing required parameters: " ++
            strJoin ", " (missingParams rt (parse_bicep_parameters templateLines) provided)) := by
  have hauto : ∀ p ∈ autoCalculated rt,
      p ∉ missingParams rt (parse_bicep_parameters templateLines) provided := by
    intro p hp hcontra
    rcases (mem_missingParams rt _ provided p).mp hcontra with ⟨d, _, hnot, _⟩
    exact hnot hp
  by_cases hm : missingParams rt (parse_bicep_parameters templateLines) provided = []
  · have hok : validate_bicep_parameters rt true templateLines provided
        = (true, "OK", parse_bicep_parameters templateLines) := by
      unfold validate_bicep_parameters
      simp [hrt, hm]
    refine ⟨?_, mem_missingParams rt _ provided, hauto, ?_⟩
    · rw [hok]
      simpa using (missingParams_eq_nil_iff rt _ provided).mp hm
    · rw [hok]
      intro hcontra
      exact absurd hcontra (by simp)
  · have hbad : validate_bicep_parameters rt true templateLines provided
        = (false,
           "Missing required parameters: " ++
             strJoin ", " (missingParams rt (parse_bicep_parameters templateLines) provided),
           parse_bicep_parameters templateLines) := by
      unfold validate_bicep_parameters
      simp [hrt, hm]
    refine ⟨?_, mem_missingParams rt _ provided, hauto, ?_⟩
    · rw [hbad]
      simp only [Bool.false_eq_true, false_iff]
      intro hall
      exact hm ((missingParams_eq_nil_iff rt _ provided).mpr hall)
    · rw [hbad]
      intro
      rfl

theorem spec_C1_witness :
    inTemplateMap "subnet" = true
    ∧ ((validate_bicep_parameters "subnet" true
          ["param vnetName string", "param subnetStartingAddress string"]
          [("vnetName", some "v1")]).1 = true ↔
        ∀ e ∈ parse_bicep_parameters
            ["param vnetName string", "param subnetStartingAddress string"],
          e.2.1 = true → e.1 ∉ autoCalculated "subnet" →
            suppliedPresent [("vnetName", some "v1")] e.1 = true) := by
  refine ⟨by decide, ?_⟩
  exact (spec_C1_validate_bicep_parameters "subnet"
    ["param vnetName string", "param subnetStartingAddress string"]
    [("vnetName", some "v1")] (by decide)).1

/-! ## Subnet address calculation (utils.py calculate_next_subnet_address)

External lookups are inputs: `vnetCidr` is the stdout of
`az network vnet show` (`none` models a failed or empty lookup) and
`subnets` the address prefixes returned by get_vnet_subnets.  Any exception
in the Python body (an unparsable numeral, a missing octet) is caught by the
surrounding try and yields `None`, modelled by `none` throughout. -/

/-- `a.b.c.d` octets to the integer `(a<<24)+(b<<16)+(c<<8)+d`
(utils.py line 438); Python indexes the first four split parts, so fewer
than four raise (none) and extra parts are ignored. -/
def ipToInt (octets : List Nat) : Option Nat :=
  match octets with
  | a :: b :: c :: d :: _ => some (a * 2 ^ 24 + b * 2 ^ 16 + c * 2 ^ 8 + d)
  | _ => none

/-- Parse `ip/len` into `(ipInteger, prefixLength)` the way the Python code
does with `split('/')` and `int(...)` (only the first two slash parts are
read; a missing slash part or a non-numeral raises, hence `none`; negative
numerals, which Python would accept, do not occur in CIDR text). -/
def parseCidr (s : String) : Option (Nat × Nat) :=
  match splitOnChar '/' s.data with
  | ip :: pfx :: _ => do
    let octets ← (splitOnChar '.' ip).mapM (fun p => parseNat ⟨p⟩)
    let ipInt ← ipToInt octets
    let n ← parseNat ⟨pfx⟩
    some (ipInt, n)
  | _ => none

/-- The `used_ranges` loop (utils.py lines 446-455): prefixes without a '/'
are skipped; a prefix that fails to parse raises (none for the whole
computation).  A prefix length above 32 would make Python build a fractional
(float) interval, which every later use either never touches or crashes on
(caught, yielding None); such lengths cannot occur in CIDR data and are
modelled as a failed computation. -/
def usedRangesOf (subnets : List String) : Option (List (Nat × Nat)) :=
  subnets.foldr (fun s acc => do
    let rest ← acc
    if occursIn ['/'] s.data then
      match parseCidr s with
      | some (st, k) => if k ≤ 32 then some ((st, st + 2 ^ (32 - k)) :: rest) else none
      | none => none
    else some rest) (some [])

/-- Insert into a list sorted by interval start (`used_ranges.sort(key=...)`,
utils.py line 457; the walk below is insensitive to the order of ranges with
equal starts, so insertion sort observes Python's stable sort). -/
def insSorted (x : Nat × Nat) : List (Nat × Nat) → List (Nat × Nat)
  | [] => [x]
  | y :: ys => if x.1 ≤ y.1 then x :: y :: ys else y :: insSorted x ys

/-- Sort ranges by start. -/
def sortRanges : List (Nat × Nat) → List (Nat × Nat)
  | [] => []
  | x :: xs => insSorted x (sortRanges xs)

/-- The candidate walk (utils.py lines 458-464): for each used range in
start order, stop if the candidate block fits before it, else skip past it. -/
def walkCand (size : Nat) (cand : Nat) : List (Nat × Nat) → Nat
  | [] => cand
  | (s, e) :: rest =>
    if cand + size ≤ s then cand
    else walkCand size (if cand < e then e else cand) rest

/-- Integer back to dotted-quad text (utils.py line 470; `>> k` and `& 255`
are `/ 2^k` and `% 256`). -/
def natToDotted (n : Nat) : String :=
  toString (n / 2 ^ 24 % 256) ++ "." ++ toString (n / 2 ^ 16 % 256) ++ "." ++
    toString (n / 2 ^ 8 % 256) ++ "." ++ toString (n % 256)

/-- calculate_next_subnet_address (utils.py lines 421-476). -/
def calculate_next_subnet_address (vnetCidr : Option String)
    (subnets : List String) (subnet_size : Nat) : Option String :=
  match vnetCidr with
  | none => none
  | some cidr =>
    match parseCidr (pyStrip cidr) with
    | none => none
    | some (baseInt, vnetPfxLen) =>
      if vnetPfxLen > 32 then none
      else
        match usedRangesOf subnets with
        | none => none
        | some ranges =>
          let cand := walkCand (2 ^ (32 - subnet_size)) baseInt (sortRanges ranges)
          if cand + 2 ^ (32 - subnet_size) > baseInt + 2 ^ (32 - vnetPfxLen) then none
          else some (natToDotted cand)

/-! ## Deployment Dispatcher, pre-invocation phase (utils.py deploy_bicep)

The phase of deploy_bicep before run_powershell_script is invoked
(utils.py lines 702-756): template lookup, parameter derivation
(storage access tier, fabric region, subnet starting address) and the script
existence check.  `.err` is an early textual return (no deployment is
invoked); `.proceed` carries the final parameter map handed to the
deployment script.  File existence and external lookups are environment
arguments; environment-dependent path text is omitted from the two
file-not-found messages. -/
inductive DeployPre where
  | err (msg : String)
  | proceed (finalParams : List (String × String))
deriving DecidableEq

/-- Python `str.capitalize()` (first character upper, rest lower). -/
def pyCapitalize (s : String) : String :=
  match s.data with
  | [] => ""
  | c :: rest => ⟨c.toUpper :: rest.map Char.toLower⟩

/-- `tenant_region.lower().replace(" ", "")` (utils.py line 719). -/
def normalizeRegion (s : String) : String :=
  ⟨(pyLower s).data.filter (fun c => c ≠ ' ')⟩

/-- The storage-account access-tier case normalization
(utils.py lines 711-712). -/
def applyAccessTier (resource_type : String)
    (parameters : List (String × String)) : List (String × String) :=
  if resource_type = "storage-account" ∧ dictHas parameters "accessTier" then
    dictInsert parameters "accessTier"
      (pyCapitalize (pyLower ((dictGet parameters "accessTier").getD "")))
  else parameters

/-- The fabric-capacity location override (utils.py lines 715-724). -/
def applyFabricLocation (resource_type : String)
    (parameters : List (String × String))
    (fabricTenantRegion : Option String) : List (String × String) :=
  if resource_type = "fabric-capacity" then
    match fabricTenantRegion with
    | some r => dictInsert parameters "location" (normalizeRegion r)
    | none => dictInsert parameters "location" "westcentralus"
  else parameters

/-- The parameter-derivation steps of deploy_bicep, in source order. -/
def deriveParams (resource_type : String) (parameters : List (String × String))
    (fabricTenantRegion : Option String) : List (String × String) :=
  applyFabricLocation resource_type (applyAccessTier resource_type parameters)
    fabricTenantRegion

/-- The subnet starting-address auto-calculation of deploy_bicep
(utils.py lines 727-737).  A "subnetSize" value that is not a numeral would
raise uncaught in Python (not modelled; the default 27 applies when the key
is absent). -/
def subnetPhase (resource_type : String) (p : List (String × String))
    (vnetCidr : Option String) (vnetSubnets : List String) : DeployPre :=
  if resource_type = "subnet" then
    if (dictGet p "vnetName").getD "" ≠ "" ∧ ¬ dictHas p "subnetStartingAddress" then
      match calculate_next_subnet_address vnetCidr vnetSubnets
          (((dictGet p "subnetSize").bind parseNat).getD 27) with
      | some addr => .proceed (dictInsert p "subnetStartingAddress" addr)
      | none => .err ("Error: Could not calculate next available subnet address in VNet '"
          ++ (dictGet p "vnetName").getD "" ++ "'. The VNet may be full or not accessible.")
    else .proceed p
  else .proceed p

/-- deploy_bicep up to the run_powershell_script call (utils.py 702-756). -/
def deploy_bicep_pre (resource_group resource_type : String)
    (parameters : List (String × String))
    (templateExists : Bool) (fabricTenantRegion : Option String)
    (vnetCidr : Option String) (vnetSubnets : List String)
    (scriptExists : Bool) : DeployPre :=
  if ¬ inTemplateMap resource_type then
    .err ("Unknown resource_type '" ++ resource_type ++ "'.")
  else if ¬ templateExists then
    .err "Template not found"
  else
    match subnetPhase resource_type
        (deriveParams resource_type parameters fabricTenantRegion)
        vnetCidr vnetSubnets with
    | .err m => .err m
    | .proceed p =>
      if ¬ scriptExists then .err "Error: Script 'deploy-bicep.ps1' not found"
      else .proceed p

/-! ## Soundness of the candidate walk -/

theorem walkCand_ge (size : Nat) :
    ∀ (l : List (Nat × Nat)) (cand : Nat), cand ≤ walkCand size cand l := by
  intro l
  induction l with
  | nil => intro cand; exact Nat.le_refl cand
  | cons hd rest ih =>
    intro cand
    rcases hd with ⟨s, e⟩
    unfold walkCand
    by_cases hb : cand + size ≤ s
    · rw [if_pos hb]
    · rw [if_neg hb]
      by_cases hlt : cand < e
      · rw [if_pos hlt]
        exact Nat.le_trans (Nat.le_of_lt hlt) (ih e)
      · rw [if_neg hlt]
        exact ih cand

/-- After the walk over a start-sorted range list, the candidate block
`[walkCand .., walkCand .. + size)` is disjoint from every listed range. -/
theorem walkCand_disjoint (size : Nat) :
    ∀ (l : List (Nat × Nat)) (cand : Nat),
      List.Pairwise (fun a b => a.1 ≤ b.1) l →
      ∀ r ∈ l, walkCand size cand l + size ≤ r.1 ∨ r.2 ≤ walkCand size cand l := by
  intro l
  induction l with
  | nil => intro cand _ r hr; cases hr
  | cons hd rest ih =>
    intro cand hpw r hr
    rcases hd with ⟨s, e⟩
    obtain ⟨hhead, htail⟩ := List.pairwise_cons.mp hpw
    unfold walkCand
    by_cases hb : cand + size ≤ s
    · rw [if_pos hb]
      rcases List.mem_cons.mp hr with hr | hr
      · subst hr
        exact Or.inl hb
      · exact Or.inl (Nat.le_trans hb (hhead r hr))
    · rw [if_neg hb]
      rcases List.mem_cons.mp hr with hr | hr
      · subst hr
        refine Or.inr ?_
        by_cases hlt : cand < e
        · rw [if_pos hlt]
          exact walkCand_ge size rest e
        · rw [if_neg hlt]
          exact Nat.le_trans (Nat.le_of_not_lt hlt) (walkCand_ge size rest cand)
      · exact ih _ htail r hr

theorem mem_insSorted {x y : Nat × Nat} {l : List (Nat × Nat)} :
    y ∈ insSorted x l ↔ y = x ∨ y ∈ l := by
  induction l with
  | nil => simp [insSorted]
  | cons hd rest ih =>
    unfold insSorted
    by_cases hb : x.1 ≤ hd.1
    · rw [if_pos hb]
      simp only [List.mem_cons]
    · rw [if_neg hb]
      simp only [List.mem_cons, ih]
      tauto

theorem mem_sortRanges {y : Nat × Nat} :
    ∀ {l : List (Nat × Nat)}, y ∈ sortRanges l ↔ y ∈ l := by
  intro l
  induction l with
  | nil => simp [sortRanges]
  | cons hd rest ih =>
    unfold sortRanges
    rw [mem_insSorted, ih]
    simp only [List.mem_cons]

theorem pairwise_insSorted {x : Nat × Nat} {l : List (Nat × Nat)}
    (h : List.Pairwise (fun a b => a.1 ≤ b.1) l) :
    List.Pairwise (fun a b : Nat × Nat => a.1 ≤ b.1) (insSorted x l) := by
  induction l with
  | nil => simp [insSorted]
  | cons hd rest ih =>
    obtain ⟨hhead, htail⟩ := List.pairwise_cons.mp h
    unfold insSorted
    by_cases hb : x.1 ≤ hd.1
    · rw [if_pos hb]
      refine List.pairwise_cons.mpr ⟨?_, h⟩
      intro b hb2
      rcases List.mem_cons.mp hb2 with hb2 | hb2
      · exact hb2 ▸ hb
      · exact Nat.le_trans hb (hhead b hb2)
    · rw [if_neg hb]
      refine List.pairwise_cons.mpr ⟨?_, ih htail⟩
      intro b hb2
      rcases mem_insSorted.mp hb2 with hb2 | hb2
      · exact hb2 ▸ Nat.le_of_not_le hb
      · exact hhead b hb2

theorem pairwise_sortRanges :
    ∀ (l : List (Nat × Nat)),
      List.Pairwise (fun a b : Nat × Nat => a.1 ≤ b.1) (sortRanges l) := by
  intro l
  induction l with
  | nil => simp [sortRanges]
  | cons hd rest ih => exact pairwise_insSorted ih

/-- When no block of the requested size fits inside the virtual network's
range without overlapping a used range, calculate_next_subnet_address
returns failure (`none`), never a default. -/
theorem calc_none_of_no_gap (cidr : String) (subs : List String)
    (baseInt vnetPfxLen size : Nat) (ranges : List (Nat × Nat))
    (hparse : parseCidr (pyStrip cidr) = some (baseInt, vnetPfxLen))
    (hpfx : vnetPfxLen ≤ 32)
    (hranges : usedRangesOf subs = some ranges)
    (hng : ∀ c, baseInt ≤ c → c + 2 ^ (32 - size) ≤ baseInt + 2 ^ (32 - vnetPfxLen) →
      ∃ r ∈ ranges, c < r.2 ∧ r.1 < c + 2 ^ (32 - size)) :
    calculate_next_subnet_address (some cidr) subs size = none := by
  unfold calculate_next_subnet_address
  simp only
  rw [hparse]
  simp only
  rw [if_neg (by omega), hranges]
  simp only
  set cand := walkCand (2 ^ (32 - size)) baseInt (sortRanges ranges) with hcand
  by_cases hfit : cand + 2 ^ (32 - size) > baseInt + 2 ^ (32 - vnetPfxLen)
  · rw [if_pos hfit]
  · exfalso
    have hge : baseInt ≤ cand := walkCand_ge _ _ _
    obtain ⟨r, hrmem, hov1, hov2⟩ := hng cand hge (Nat.le_of_not_lt hfit)
    have hdisj := walkCand_disjoint (2 ^ (32 - size)) (sortRanges ranges) baseInt
      (pairwise_sortRanges ranges) r (mem_sortRanges.mpr hrmem)
    rw [← hcand] at hdisj
    omega

/-- C5: subnet address auto-calculation.  (1) With virtual network range
10.0.0.0/16 and one existing subnet 10.0.0.0/27, a requested /27 subnet gets
starting address 10.0.0.32.  (2) For every configuration of existing subnets
leaving no gap of the requested size inside the virtual network's range,
deploy_bicep on a subnet (auto-calculation engaged: a vnetName parameter and
no supplied subnetStartingAddress) returns the failure message and does not
proceed to deployment with any default address. -/
theorem spec_C5_subnet_auto_calculation :
    calculate_next_subnet_address (some "10.0.0.0/16") ["10.0.0.0/27"] 27 = some "10.0.0.32"
    ∧ ∀ (rg cidr : String) (params : List (String × String)) (subs : List String)
        (baseInt vnetPfxLen size : Nat) (ranges : List (Nat × Nat)),
        (dictGet params "vnetName").getD "" ≠ "" →
        dictHas params "subnetStartingAddress" = false →
        ((dictGet params "subnetSize").bind parseNat).getD 27 = size →
        parseCidr (pyStrip cidr) = some (baseInt, vnetPfxLen) →
        vnetPfxLen ≤ 32 →
        usedRangesOf subs = some ranges →
        (∀ c, baseInt ≤ c → c + 2 ^ (32 - size) ≤ baseInt + 2 ^ (32 - vnetPfxLen) →
          ∃ r ∈ ranges, c < r.2 ∧ r.1 < c + 2 ^ (32 - size)) →
        deploy_bicep_pre rg "subnet" params true none (some cidr) subs true =
          .err ("Error: Could not calculate next available subnet address in VNet '"
            ++ (dictGet params "vnetName").getD "" ++ "'. The VNet may be full or not accessible.") := by
  constructor
  · rfl
  · intro rg cidr params subs baseInt vnetPfxLen size ranges
    intro hvn hno hsize hparse hpfx hranges hng
    have hcalc := calc_none_of_no_gap cidr subs baseInt vnetPfxLen size ranges
      hparse hpfx hranges hng
    have hderive : deriveParams "subnet" params none = params := by
      unfold deriveParams applyFabricLocation applyAccessTier
      rw [if_neg (show ¬("subnet" = "fabric-capacity") by decide)]
      rw [if_neg (show ¬("subnet" = "storage-account" ∧ dictHas params "accessTier" = true)
        from fun h => absurd h.1 (by decide))]
    unfold deploy_bicep_pre
    rw [if_neg (show ¬¬(inTemplateMap "subnet" = true) by decide)]
    rw [if_neg (show ¬¬(true = true) by decide)]
    rw [hderive]
    unfold subnetPhase
    rw [if_pos (show ("subnet" = "subnet") from rfl)]
    rw [if_pos (show (dictGet params "vnetName").getD "" ≠ "" ∧
      ¬(dictHas params "subnetStartingAddress" = true) from ⟨hvn, by rw [hno]; decide⟩)]
    rw [hsize, hcalc]

theorem spec_C5_witness :
    deploy_bicep_pre "rg1" "subnet" [("vnetName", "v1")] true none
        (some "10.0.0.0/27") ["10.0.0.0/27"] true =
      .err ("Error: Could not calculate next available subnet address in VNet '"
        ++ "v1" ++ "'. The VNet may be full or not accessible.") := by
  have h := (spec_C5_subnet_auto_calculation).2 "rg1" "10.0.0.0/27" [("vnetName", "v1")]
    ["10.0.0.0/27"] 167772160 27 27 [(167772160, 167772192)]
    (by decide) (by decide) (by decide) (by decide) (by decide) (by decide)
    (by
      intro c h1 h2
      refine ⟨(167772160, 167772192), by simp, by omega⟩)
  simpa using h

/-! ## C10: create-step failure detection in the compliance workflows -/

/-- The create-step failure test of both compliance workflows
(azure.py lines 427 and 523): some ERROR_KEYWORDS entry occurs in the
lowercased create output. -/
def createStepFailed (createResult : String) : Bool :=
  ERROR_KEYWORDS.any (fun k => strOccurs k (pyLower createResult))

theorem headMatches_subset {n h : List Char} (hm : headMatches n h = true) :
    ∀ c ∈ n, c ∈ h := by
  induction n generalizing h with
  | nil => intro c hc; cases hc
  | cons a as ih =>
    intro c hc
    cases h with
    | nil => cases hm
    | cons b bs =>
      unfold headMatches at hm
      simp only [Bool.and_eq_true] at hm
      obtain ⟨hab, hrest⟩ := hm
      rcases List.mem_cons.mp hc with hc | hc
      · subst hc
        exact List.mem_cons.mpr (Or.inl (of_decide_eq_true hab))
      · exact List.mem_cons.mpr (Or.inr (ih hrest c hc))

theorem occursIn_subset {n : List Char} :
    ∀ {h : List Char}, occursIn n h = true → ∀ c ∈ n, c ∈ h := by
  intro h
  induction h with
  | nil =>
    intro ho c hc
    cases n with
    | nil => cases hc
    | cons a as => cases ho
  | cons b bs ih =>
    intro ho c hc
    simp only [occursIn, Bool.or_eq_true] at ho
    rcases ho with ho | ho
    · exact headMatches_subset ho c hc
    · exact List.mem_cons.mpr (Or.inr (ih ho c hc))

theorem toLower_ne_E (c : Char) : Char.toLower c ≠ 'E' := by
  unfold Char.toLower
  by_cases h : c.toNat ≥ 65 ∧ c.toNat ≤ 90
  · rw [if_pos h]
    obtain ⟨h1, h2⟩ := h
    intro heq
    interval_cases hn : c.toNat <;> exact absurd heq (by decide)
  · rw [if_neg h]
    intro heq
    subst heq
    exact h (by decide)

theorem toLower_ne_F (c : Char) : Char.toLower c ≠ 'F' := by
  unfold Char.toLower
  by_cases h : c.toNat ≥ 65 ∧ c.toNat ≤ 90
  · rw [if_pos h]
    obtain ⟨h1, h2⟩ := h
    intro heq
    interval_cases hn : c.toNat <;> exact absurd heq (by decide)
  · rw [if_neg h]
    intro heq
    subst heq
    exact h (by decide)

/-- A needle whose first letter is an upper-case 'E' or 'F' never occurs in a
lowercased string. -/
theorem upperKeywordAbsent (s : String) (needle : String) (u : Char)
    (hu : u ∈ needle.data) (hne : ∀ c : Char, Char.toLower c ≠ u) :
    strOccurs needle (pyLower s) = false := by
  cases hb : strOccurs needle (pyLower s) with
  | false => rfl
  | true =>
    exfalso
    unfold strOccurs pyLower at hb
    have humem : u ∈ s.data.map Char.toLower := occursIn_subset hb u hu
    obtain ⟨d, _, hd⟩ := List.mem_map.mp humem
    exact hne d hd

/-- C10: the create step of both compliance workflows is judged failed
exactly when the lowercased create output holds "error" or "failed"; the
mixed-case entries "Error", "FAILED" and "Failed" of ERROR_KEYWORDS can
never match a lowercased output, so detection is exactly case-insensitive
matching of the two words. -/
theorem spec_C10_create_failure_keywords (s : String) :
    createStepFailed s
      = (strOccurs "error" (pyLower s) || strOccurs "failed" (pyLower s))
    ∧ strOccurs "Error" (pyLower s) = false
    ∧ strOccurs "FAILED" (pyLower s) = false
    ∧ strOccurs "Failed" (pyLower s) = false := by
  have hE : strOccurs "Error" (pyLower s) = false :=
    upperKeywordAbsent s "Error" 'E' (by decide) toLower_ne_E
  have hFA : strOccurs "FAILED" (pyLower s) = false :=
    upperKeywordAbsent s "FAILED" 'F' (by decide) toLower_ne_F
  have hF : strOccurs "Failed" (pyLower s) = false :=
    upperKeywordAbsent s "Failed" 'F' (by decide) toLower_ne_F
  refine ⟨?_, hE, hFA, hF⟩
  unfold createStepFailed ERROR_KEYWORDS
  simp only [List.any_cons, List.any_nil, hE, hFA, hF, Bool.false_or, Bool.or_false]

/-! ## Compliance workflows (azure.py attach_to_nsp, attach_diagnostic_settings)

The two workflows consume the parsed JSON of the resource lookup, may invoke
one create step and one attach step, and narrate the run.  External outcomes
are an environment record; the invocations the workflow performs are
returned as an event trace alongside the narrative text. -/

/-- One resource entry of a parsed lookup result (`r.get("name")`,
`r.get("id")`; absent keys are `none`). -/
structure RRes where
  name : Option String
  id : Option String
deriving DecidableEq

/-- A parsed lookup result: `check_data.get("count", 0)` and
`check_data.get("resources", [])` (lookup outputs carry nonnegative counts). -/
structure CheckData where
  count : Nat
  resources : List RRes
deriving DecidableEq

/-- The external invocations a workflow can perform: a resource lookup
(check_resource), a prerequisite creation (create_resource with the name and
location parameters of the created resource), and the attach script run (its
primary argument -NspName or -WorkspaceId, and -ResourceId). -/
inductive WfEvent where
  | lookup (resourceType : String)
  | create (resourceType : String) (name : String) (location : String)
  | attach (script : String) (primary : Option String) (resourceId : String)
deriving DecidableEq

def isCreateEv : WfEvent → Bool
  | .create _ _ _ => true
  | _ => false

def isLookupEv : WfEvent → Bool
  | .lookup _ => true
  | _ => false

def isAttachEv : WfEvent → Bool
  | .attach _ _ _ => true
  | _ => false

/-- `not s or not s.strip()`: None, empty or whitespace-only. -/
def isBlankArg : Option String → Bool
  | none => true
  | some s => s.data.all isSpace

/-- Python truthiness of an optional string (None or "" is falsy). -/
def isFalsyStr : Option String → Bool
  | none => true
  | some s => s = ""

/-- f-string rendering of a possibly-None value (Python prints `None`). -/
def optStr : Option String → String
  | none => "None"
  | some s => s

/-- `"=" * 70`. -/
def barEq : String := ⟨List.replicate 70 '='⟩

/-- The attach-step failure test (azure.py lines 465 and 567): ERROR_KEYWORDS
against the raw (not lowercased) attach output. -/
def attachStepFailed (result : String) : Bool :=
  ERROR_KEYWORDS.any (fun k => strOccurs k result)

/-- `nsp_name or f"{resource_group}-nsp"` (azure.py line 422). -/
def effNspName (nsp_name : Option String) (rg : String) : String :=
  match nsp_name with
  | some s => if s = "" then rg ++ "-nsp" else s
  | none => rg ++ "-nsp"

/-- The existing-NSP selection (azure.py lines 436-443): prefer an exact name
match when the caller named one, else the first listed resource. -/
def chosenNspName (nsp_name : Option String) (resources : List RRes) : Option String :=
  match nsp_name with
  | some s =>
    if s = "" then (resources.headD ⟨none, none⟩).name
    else if (resources.filter (fun r => r.name = some s)) ≠ [] then
      ((resources.filter (fun r => r.name = some s)).headD ⟨none, none⟩).name
    else (resources.headD ⟨none, none⟩).name
  | none => (resources.headD ⟨none, none⟩).name

/-- External outcomes consumed by attach_to_nsp: the parsed first lookup
(`none` = JSON parse failure) with its raw text, the create output, the
attach script's existence and its output. -/
structure NspEnv where
  check1 : Option CheckData
  check1Raw : String
  createResult : String
  attachScriptExists : Bool
  attachResult : String
deriving DecidableEq

/-- Step 3/3 of attach_to_nsp (azure.py lines 449-485). -/
def nspAttachStep (rg : String) (chosen : Option String) (rid : String)
    (env : NspEnv) (output : List String) (events : List WfEvent) :
    String × List WfEvent :=
  let output2 := output ++ ["", "Step 3/3: Attaching resource to NSP..."]
  if ¬ env.attachScriptExists then
    (strJoin "\n" output2 ++ "\n\nError: attach-nsp.ps1 script not found", events)
  else
    let events2 := events ++ [WfEvent.attach "attach-nsp.ps1" chosen rid]
    if attachStepFailed env.attachResult then
      (strJoin "\n" (output2 ++ ["   Failed to attach resource to NSP", "", barEq,
        "Error Details:", env.attachResult]), events2)
    else
      (strJoin "\n" (output2 ++ ["   → Resource attached to NSP '" ++ optStr chosen ++ "'",
        "", barEq, "Workflow completed", "", "Network security compliance resolved.", "",
        "Summary:", "   • Resource Group: " ++ rg, "   • NSP Name: " ++ optStr chosen,
        "   • Resource attached and secured"]), events2)

/-- attach_to_nsp (azure.py lines 396-485). -/
def attach_to_nsp (resource_group nsp_name resource_id : Option String)
    (env : NspEnv) : String × List WfEvent :=
  if isBlankArg resource_group then ("Error: Resource group name is required", [])
  else if isBlankArg resource_id then ("Error: Resource ID is required", [])
  else
    let rg := resource_group.getD ""
    let rid := resource_id.getD ""
    let output1 : List String := ["Starting NSP Attachment Workflow", barEq, "",
      "Step 1/3: Checking for existing NSP..."]
    match env.check1 with
    | none =>
      ("Error: Failed to parse NSP check result:\n" ++ env.check1Raw,
        [WfEvent.lookup "nsp"])
    | some data =>
      if data.count = 0 then
        let effName := effNspName nsp_name rg
        let ev2 := [WfEvent.lookup "nsp", WfEvent.create "nsp" effName "global"]
        let output2 := output1 ++ ["   → No NSP found in resource group", "",
          "Step 2/3: Creating NSP..."]
        if createStepFailed env.createResult then
          (strJoin "\n" output2 ++ "\n\nFailed to create NSP:\n" ++ env.createResult, ev2)
        else
          nspAttachStep rg (some effName) rid env
            (output2 ++ ["   → NSP '" ++ effName ++ "' created successfully"]) ev2
      else
        if data.resources = [] then
          (strJoin "\n" output1 ++ "\n\nError: NSP check returned invalid data",
            [WfEvent.lookup "nsp"])
        else
          let chosen := chosenNspName nsp_name data.resources
          nspAttachStep rg chosen rid env
            (output1 ++ ["   → Found existing NSP: '" ++ optStr chosen ++ "'", "",
              "Step 2/3: Skipping NSP creation (already exists)"])
            [WfEvent.lookup "nsp"]

/-- External outcomes consumed by attach_diagnostic_settings: parsed first
lookup and raw text, create output, parsed re-query after creation, attach
script existence and output. -/
structure LawEnv where
  check1 : Option CheckData
  check1Raw : String
  createResult : String
  check2 : Option CheckData
  attachScriptExists : Bool
  attachResult : String
deriving DecidableEq

/-- The workspace id after the post-creation re-query (azure.py lines
528-535): the first re-queried resource's id when any, else the incoming
argument. -/
def lawNewId (workspace_id : Option String) (data2 : CheckData) : Option String :=
  if data2.resources ≠ [] then (data2.resources.headD ⟨none, none⟩).id else workspace_id

/-- The workspace id used with an existing workspace (azure.py lines
541-545): the first match's id when the caller supplied none. -/
def lawExistingId (workspace_id : Option String) (resources : List RRes) : Option String :=
  if isFalsyStr workspace_id then (resources.headD ⟨none, none⟩).id else workspace_id

/-- The displayed workspace name with an existing workspace (azure.py lines
541-545): the first match's name, or the last path segment of a supplied id. -/
def lawExistingName (workspace_id : Option String) (resources : List RRes) : Option String :=
  if isFalsyStr workspace_id then (resources.headD ⟨none, none⟩).name
  else
    let w := workspace_id.getD ""
    if occursIn ['/'] w.data then some ⟨(splitOnChar '/' w.data).getLastD []⟩
    else some w

/-- Step 3/3 of attach_diagnostic_settings (azure.py lines 551-587). -/
def lawAttachStep (rg : String) (wsId wsName : Option String) (rid : String)
    (env : LawEnv) (output : List String) (events : List WfEvent) :
    String × List WfEvent :=
  let output2 := output ++ ["", "Step 3/3: Configuring diagnostic settings..."]
  if ¬ env.attachScriptExists then
    (strJoin "\n" output2 ++ "\n\nError: attach-log-analytics.ps1 script not found", events)
  else
    let events2 := events ++ [WfEvent.attach "attach-log-analytics.ps1" wsId rid]
    if attachStepFailed env.attachResult then
      (strJoin "\n" (output2 ++ ["   Failed to configure diagnostic settings", "", barEq,
        "Error Details:", env.attachResult]), events2)
    else
      (strJoin "\n" (output2 ++ ["   → Diagnostic settings configured successfully", "",
        barEq, "Workflow completed", "", "Monitoring compliance resolved.", "", "Summary:",
        "   • Resource Group: " ++ rg,
        "   • Log Analytics Workspace: " ++ optStr wsName,
        "   • Diagnostic settings enabled and monitoring active"]), events2)

/-- attach_diagnostic_settings (azure.py lines 488-587). -/
def attach_diagnostic_settings (resource_group workspace_id resource_id : Option String)
    (env : LawEnv) : String × List WfEvent :=
  if isBlankArg resource_group then ("Error: Resource group name is required", [])
  else if isBlankArg resource_id then ("Error: Resource ID is required", [])
  else
    let rg := resource_group.getD ""
    let rid := resource_id.getD ""
    let output1 : List String := ["📊 Starting Log Analytics Configuration Workflow", barEq,
      "", "Step 1/3: Checking for existing Log Analytics Workspace..."]
    match env.check1 with
    | none =>
      ("Error: Failed to parse Log Analytics check result:\n" ++ env.check1Raw,
        [WfEvent.lookup "log-analytics"])
    | some data =>
      if data.count = 0 then
        let wsName := rg ++ "-law"
        let ev2 := [WfEvent.lookup "log-analytics",
          WfEvent.create "log-analytics" wsName "eastus"]
        let output2 := output1 ++ ["   → No Log Analytics Workspace found", "",
          "Step 2/3: Creating Log Analytics Workspace..."]
        if createStepFailed env.createResult then
          (strJoin "\n" output2 ++ "\n\nFailed to create Log Analytics Workspace:\n"
            ++ env.createResult, ev2)
        else
          let output3 := output2 ++
            ["   → Log Analytics Workspace '" ++ wsName ++ "' created successfully"]
          let ev3 := ev2 ++ [WfEvent.lookup "log-analytics"]
          match env.check2 with
          | none =>
            (strJoin "\n" output3 ++ "\n\nError: Could not retrieve workspace ID after creation",
              ev3)
          | some data2 =>
            lawAttachStep rg (lawNewId workspace_id data2) (some wsName) rid env output3 ev3
      else
        if data.resources = [] then
          (strJoin "\n" output1 ++ "\n\nError: Log Analytics check returned invalid data",
            [WfEvent.lookup "log-analytics"])
        else
          lawAttachStep rg (lawExistingId workspace_id data.resources)
            (lawExistingName workspace_id data.resources) rid env
            (output1 ++ ["   → Found existing Log Analytics Workspace: '"
              ++ optStr (lawExistingName workspace_id data.resources) ++ "'", "",
              "Step 2/3: Skipping workspace creation (already exists)"])
            [WfEvent.lookup "log-analytics"]

/-! ## Trace characterization of the two workflows -/

theorem nsp_trace_eq (resource_group nsp_name resource_id : Option String) (env : NspEnv) :
    (attach_to_nsp resource_group nsp_name resource_id env).2 =
      if isBlankArg resource_group then []
      else if isBlankArg resource_id then []
      else
        match env.check1 with
        | none => [WfEvent.lookup "nsp"]
        | some data =>
          if data.count = 0 then
            [WfEvent.lookup "nsp",
             WfEvent.create "nsp" (effNspName nsp_name (resource_group.getD "")) "global"]
            ++ (if createStepFailed env.createResult then []
                else if ¬ env.attachScriptExists then []
                else [WfEvent.attach "attach-nsp.ps1"
                  (some (effNspName nsp_name (resource_group.getD "")))
                  (resource_id.getD "")])
          else if data.resources = [] then [WfEvent.lookup "nsp"]
          else [WfEvent.lookup "nsp"]
            ++ (if ¬ env.attachScriptExists then []
                else [WfEvent.attach "attach-nsp.ps1"
                  (chosenNspName nsp_name data.resources) (resource_id.getD "")]) := by
  unfold attach_to_nsp nspAttachStep
  repeat' split <;> try rfl

theorem law_trace_eq (resource_group workspace_id resource_id : Option String)
    (env : LawEnv) :
    (attach_diagnostic_settings resource_group workspace_id resource_id env).2 =
      if isBlankArg resource_group then []
      else if isBlankArg resource_id then []
      else
        match env.check1 with
        | none => [WfEvent.lookup "log-analytics"]
        | some data =>
          if data.count = 0 then
            if createStepFailed env.createResult then
              [WfEvent.lookup "log-analytics",
               WfEvent.create "log-analytics" (resource_group.getD "" ++ "-law") "eastus"]
            else
              [WfEvent.lookup "log-analytics",
               WfEvent.create "log-analytics" (resource_group.getD "" ++ "-law") "eastus",
               WfEvent.lookup "log-analytics"]
              ++ (match env.check2 with
                  | none => []
                  | some data2 =>
                    if ¬ env.attachScriptExists then []
                    else [WfEvent.attach "attach-log-analytics.ps1"
                      (lawNewId workspace_id data2) (resource_id.getD "")])
          else if data.resources = [] then [WfEvent.lookup "log-analytics"]
          else [WfEvent.lookup "log-analytics"]
            ++ (if ¬ env.attachScriptExists then []
                else [WfEvent.attach "attach-log-analytics.ps1"
                  (lawExistingId workspace_id data.resources) (resource_id.getD "")]) := by
  unfold attach_diagnostic_settings lawAttachStep
  repeat' split <;> try rfl

theorem isCreateEv_lookup (t : String) : isCreateEv (WfEvent.lookup t) = false := rfl

theorem isCreateEv_attach (s : String) (p : Option String) (r : String) :
    isCreateEv (WfEvent.attach s p r) = false := rfl

/-! ## C9: argument validation of the compliance workflows -/

/-- C9: for both compliance workflows, a resource_group that is None, empty
or whitespace-only yields exactly "Error: Resource group name is required"
with an empty invocation trace (no lookup, no creation, no external
command); with a usable resource_group, a resource_id that is None, empty or
whitespace-only yields exactly "Error: Resource ID is required", likewise
with an empty trace. -/
theorem spec_C9_blank_arguments :
    (∀ (rg nm rid : Option String) (env : NspEnv),
      (isBlankArg rg = true →
        attach_to_nsp rg nm rid env = ("Error: Resource group name is required", []))
      ∧ (isBlankArg rg = false → isBlankArg rid = true →
        attach_to_nsp rg nm rid env = ("Error: Resource ID is required", [])))
    ∧ (∀ (rg wid rid : Option String) (env : LawEnv),
      (isBlankArg rg = true →
        attach_diagnostic_settings rg wid rid env
          = ("Error: Resource group name is required", []))
      ∧ (isBlankArg rg = false → isBlankArg rid = true →
        attach_diagnostic_settings rg wid rid env
          = ("Error: Resource ID is required", []))) := by
  constructor
  · intro rg nm rid env
    constructor
    · intro h
      unfold attach_to_nsp
      rw [if_pos h]
    · intro h1 h2
      unfold attach_to_nsp
      rw [if_neg (by rw [h1]; exact Bool.false_ne_true), if_pos h2]
  · intro rg wid rid env
    constructor
    · intro h
      unfold attach_diagnostic_settings
      rw [if_pos h]
    · intro h1 h2
      unfold attach_diagnostic_settings
      rw [if_neg (by rw [h1]; exact Bool.false_ne_true), if_pos h2]

theorem spec_C9_witness :
    attach_to_nsp (some "  ") none (some "rid1")
        ⟨some ⟨0, []⟩, "raw", "ok", true, "ok"⟩
      = ("Error: Resource group name is required", [])
    ∧ attach_diagnostic_settings (some "rg1") none none
        ⟨some ⟨0, []⟩, "raw", "ok", none, true, "ok"⟩
      = ("Error: Resource ID is required", []) := by
  constructor
  · exact (spec_C9_blank_arguments.1 (some "  ") none (some "rid1")
      ⟨some ⟨0, []⟩, "raw", "ok", true, "ok"⟩).1 (by decide)
  · exact (spec_C9_blank_arguments.2 (some "rg1") none none
      ⟨some ⟨0, []⟩, "raw", "ok", none, true, "ok"⟩).2 (by decide) (by decide)

/-! ## C2: the create step and lookup counts -/

/-- C2 counterexample: a parsed lookup result can report count 1 with an
empty resources list ("MULTIPLE RESOURCES FOUND" output with no parsable
list lines produces exactly this).  The NSP workflow then neither creates
nor proceeds with an existing resource: it stops after the single lookup
with an invalid-data error, refuting the claim that with count > 0 it
always proceeds with an existing resource. -/
theorem spec_C2_counterexample :
    0 < (1 : Nat)
    ∧ (attach_to_nsp (some "rg1") none (some "rid1")
        ⟨some ⟨1, []⟩, "raw", "ok", true, "ok"⟩).2 = [WfEvent.lookup "nsp"]
    ∧ ((attach_to_nsp (some "rg1") none (some "rid1")
        ⟨some ⟨1, []⟩, "raw", "ok", true, "ok"⟩).2.any (fun e => isAttachEv e)) = false
    ∧ (attach_to_nsp (some "rg1") none (some "rid1")
        ⟨some ⟨1, []⟩, "raw", "ok", true, "ok"⟩).1
      = strJoin "\n" ["Starting NSP Attachment Workflow", barEq, "",
          "Step 1/3: Checking for existing NSP..."]
        ++ "\n\nError: NSP check returned invalid data" := by
  exact ⟨by decide, rfl, rfl, rfl⟩

/-- C2 (amended): in both workflows the create step runs only when the
parsed lookup reports count 0; with count > 0 no create is ever invoked,
and the workflow proceeds to attach with an existing resource provided the
result lists at least one resource (with an empty list it aborts with an
invalid-data error before any further external call). -/
theorem spec_C2_no_create_when_found :
    (∀ (rg nm rid : Option String) (env : NspEnv) (e : WfEvent),
        e ∈ (attach_to_nsp rg nm rid env).2 → isCreateEv e = true →
        ∃ data, env.check1 = some data ∧ data.count = 0)
    ∧ (∀ (rg nm rid : Option String) (env : NspEnv) (data : CheckData),
        env.check1 = some data → 0 < data.count →
        (∀ e ∈ (attach_to_nsp rg nm rid env).2, isCreateEv e = false)
        ∧ (isBlankArg rg = false → isBlankArg rid = false → data.resources ≠ [] →
            env.attachScriptExists = true →
            WfEvent.attach "attach-nsp.ps1" (chosenNspName nm data.resources) (rid.getD "")
              ∈ (attach_to_nsp rg nm rid env).2))
    ∧ (∀ (rg wid rid : Option String) (env : LawEnv) (e : WfEvent),
        e ∈ (attach_diagnostic_settings rg wid rid env).2 → isCreateEv e = true →
        ∃ data, env.check1 = some data ∧ data.count = 0)
    ∧ (∀ (rg wid rid : Option String) (env : LawEnv) (data : CheckData),
        env.check1 = some data → 0 < data.count →
        (∀ e ∈ (attach_diagnostic_settings rg wid rid env).2, isCreateEv e = false)
        ∧ (isBlankArg rg = false → isBlankArg rid = false → data.resources ≠ [] →
            env.attachScriptExists = true →
            WfEvent.attach "attach-log-analytics.ps1"
                (lawExistingId wid data.resources) (rid.getD "")
              ∈ (attach_diagnostic_settings rg wid rid env).2)) := by
  refine ⟨?_, ?_, ?_, ?_⟩
  · intro rg nm rid env e hmem hcr
    rw [nsp_trace_eq] at hmem
    by_cases h1 : isBlankArg rg = true
    · rw [if_pos h1] at hmem; cases hmem
    · rw [if_neg h1] at hmem
      by_cases h2 : isBlankArg rid = true
      · rw [if_pos h2] at hmem; cases hmem
      · rw [if_neg h2] at hmem
        cases hc : env.check1 with
        | none =>
          rw [hc] at hmem
          simp only [List.mem_singleton] at hmem
          subst hmem
          simp [isCreateEv] at hcr
        | some data =>
          rw [hc] at hmem
          simp only at hmem
          by_cases h0 : data.count = 0
          · exact ⟨data, rfl, h0⟩
          · rw [if_neg h0] at hmem
            by_cases hres : data.resources = []
            · rw [if_pos hres, List.mem_singleton] at hmem
              subst hmem
              simp [isCreateEv] at hcr
            · rw [if_neg hres, List.mem_append] at hmem
              rcases hmem with hmem | hmem
              · rw [List.mem_singleton] at hmem
                subst hmem
                simp [isCreateEv] at hcr
              · by_cases hs : env.attachScriptExists = true
                · rw [if_neg (not_not_intro hs), List.mem_singleton] at hmem
                  subst hmem
                  simp [isCreateEv] at hcr
                · rw [if_pos hs] at hmem; cases hmem
  · intro rg nm rid env data hc hcount
    constructor
    · intro e hmem
      rw [nsp_trace_eq] at hmem
      by_cases h1 : isBlankArg rg = true
      · rw [if_pos h1] at hmem; cases hmem
      · rw [if_neg h1] at hmem
        by_cases h2 : isBlankArg rid = true
        · rw [if_pos h2] at hmem; cases hmem
        · rw [if_neg h2] at hmem
          rw [hc] at hmem
          simp only at hmem
          rw [if_neg (by omega)] at hmem
          by_cases hres : data.resources = []
          · rw [if_pos hres, List.mem_singleton] at hmem
            subst hmem; rfl
          · rw [if_neg hres, List.mem_append] at hmem
            rcases hmem with hmem | hmem
            · rw [List.mem_singleton] at hmem; subst hmem; rfl
            · by_cases hs : env.attachScriptExists = true
              · rw [if_neg (not_not_intro hs), List.mem_singleton] at hmem
                subst hmem; rfl
              · rw [if_pos hs] at hmem; cases hmem
    · intro h1 h2 hres hs
      rw [nsp_trace_eq]
      rw [if_neg (by rw [h1]; exact Bool.false_ne_true),
        if_neg (by rw [h2]; exact Bool.false_ne_true), hc]
      simp only
      rw [if_neg (by omega), if_neg hres, if_neg (not_not_intro hs)]
      simp
  · intro rg wid rid env e hmem hcr
    rw [law_trace_eq] at hmem
    by_cases h1 : isBlankArg rg = true
    · rw [if_pos h1] at hmem; cases hmem
    · rw [if_neg h1] at hmem
      by_cases h2 : isBlankArg rid = true
      · rw [if_pos h2] at hmem; cases hmem
      · rw [if_neg h2] at hmem
        cases hc : env.check1 with
        | none =>
          rw [hc] at hmem
          simp only [List.mem_singleton] at hmem
          subst hmem
          simp [isCreateEv] at hcr
        | some data =>
          rw [hc] at hmem
          simp only at hmem
          by_cases h0 : data.count = 0
          · exact ⟨data, rfl, h0⟩
          · rw [if_neg h0] at hmem
            by_cases hres : data.resources = []
            · rw [if_pos hres, List.mem_singleton] at hmem
              subst hmem
              simp [isCreateEv] at hcr
            · rw [if_neg hres, List.mem_append] at hmem
              rcases hmem with hmem | hmem
              · rw [List.mem_singleton] at hmem
                subst hmem
                simp [isCreateEv] at hcr
              · by_cases hs : env.attachScriptExists = true
                · rw [if_neg (not_not_intro hs), List.mem_singleton] at hmem
                  subst hmem
                  simp [isCreateEv] at hcr
                · rw [if_pos hs] at hmem; cases hmem
  · intro rg wid rid env data hc hcount
    constructor
    · intro e hmem
      rw [law_trace_eq] at hmem
      by_cases h1 : isBlankArg rg = true
      · rw [if_pos h1] at hmem; cases hmem
      · rw [if_neg h1] at hmem
        by_cases h2 : isBlankArg rid = true
        · rw [if_pos h2] at hmem; cases hmem
        · rw [if_neg h2] at hmem
          rw [hc] at hmem
          simp only at hmem
          rw [if_neg (by omega)] at hmem
          by_cases hres : data.resources = []
          · rw [if_pos hres, List.mem_singleton] at hmem
            subst hmem; rfl
          · rw [if_neg hres, List.mem_append] at hmem
            rcases hmem with hmem | hmem
            · rw [List.mem_singleton] at hmem; subst hmem; rfl
            · by_cases hs : env.attachScriptExists = true
              · rw [if_neg (not_not_intro hs), List.mem_singleton] at hmem
                subst hmem; rfl
              · rw [if_pos hs] at hmem; cases hmem
    · intro h1 h2 hres hs
      rw [law_trace_eq]
      rw [if_neg (by rw [h1]; exact Bool.false_ne_true),
        if_neg (by rw [h2]; exact Bool.false_ne_true), hc]
      simp only
      rw [if_neg (by omega), if_neg hres, if_neg (not_not_intro hs)]
      simp

theorem spec_C2_witness :
    ∃ data, (NspEnv.mk (some ⟨0, [⟨some "n1", some "i1"⟩]⟩) "raw" "ok" true "ok").check1
        = some data ∧ data.count = 0 := by
  refine (spec_C2_no_create_when_found.1 (some "rg1") none (some "rid1")
    ⟨some ⟨0, [⟨some "n1", some "i1"⟩]⟩, "raw", "ok", true, "ok"⟩
    (WfEvent.create "nsp" "rg1-nsp" "global") ?_ (by decide))
  rw [nsp_trace_eq]
  decide

/-! ## C3: prerequisite creation and re-query behaviour -/

/-- C3 counterexample: in the NSP workflow with no NSP found, a successful
creation is followed directly by the attach step with exactly one lookup in
the whole run — the workflow never re-queries the resource lookup after
creating, refuting the claim that each workflow re-queries to obtain the
newly created prerequisite's identifier before attaching. -/
theorem spec_C3_counterexample :
    (attach_to_nsp (some "rg1") none (some "rid1")
        ⟨some ⟨0, []⟩, "raw", "created", true, "attached"⟩).2
      = [WfEvent.lookup "nsp", WfEvent.create "nsp" "rg1-nsp" "global",
         WfEvent.attach "attach-nsp.ps1" (some "rg1-nsp") "rid1"]
    ∧ ((attach_to_nsp (some "rg1") none (some "rid1")
        ⟨some ⟨0, []⟩, "raw", "created", true, "attached"⟩).2.countP
          (fun e => isLookupEv e)) = 1 :=
  ⟨rfl, by decide⟩

/-- C3 (amended): when the prerequisite is absent (count 0), the diagnostics
workflow creates the workspace with the deterministic name
`<resource-group>-law` in the default region eastus and, after a successful
creation, re-queries the lookup and attaches using the re-queried workspace
id; the NSP workflow creates the NSP in the default region global under the
caller-supplied name when one was given, else the deterministic
`<resource-group>-nsp`, and then attaches directly by that name, issuing no
re-query. -/
theorem spec_C3_creation_and_requery :
    (∀ (rg nm rid : Option String) (env : NspEnv) (data : CheckData),
        isBlankArg rg = false → isBlankArg rid = false →
        env.check1 = some data → data.count = 0 →
        WfEvent.create "nsp" (effNspName nm (rg.getD "")) "global"
            ∈ (attach_to_nsp rg nm rid env).2
        ∧ ((attach_to_nsp rg nm rid env).2.countP (fun e => isLookupEv e)) = 1
        ∧ (createStepFailed env.createResult = false → env.attachScriptExists = true →
            (attach_to_nsp rg nm rid env).2 =
              [WfEvent.lookup "nsp",
               WfEvent.create "nsp" (effNspName nm (rg.getD "")) "global",
               WfEvent.attach "attach-nsp.ps1" (some (effNspName nm (rg.getD "")))
                 (rid.getD "")]))
    ∧ (∀ (rg wid rid : Option String) (env : LawEnv) (data : CheckData),
        isBlankArg rg = false → isBlankArg rid = false →
        env.check1 = some data → data.count = 0 →
        WfEvent.create "log-analytics" (rg.getD "" ++ "-law") "eastus"
            ∈ (attach_diagnostic_settings rg wid rid env).2
        ∧ (∀ data2, createStepFailed env.createResult = false →
            env.check2 = some data2 → env.attachScriptExists = true →
            (attach_diagnostic_settings rg wid rid env).2 =
              [WfEvent.lookup "log-analytics",
               WfEvent.create "log-analytics" (rg.getD "" ++ "-law") "eastus",
               WfEvent.lookup "log-analytics",
               WfEvent.attach "attach-log-analytics.ps1" (lawNewId wid data2)
                 (rid.getD "")])) := by
  constructor
  · intro rg nm rid env data h1 h2 hc h0
    rw [nsp_trace_eq, if_neg (by rw [h1]; exact Bool.false_ne_true),
      if_neg (by rw [h2]; exact Bool.false_ne_true), hc]
    simp only
    rw [if_pos h0]
    refine ⟨by simp, ?_, ?_⟩
    · by_cases hcf : createStepFailed env.createResult = true
      · rw [if_pos hcf]
        simp [isLookupEv, isCreateEv]
      · rw [if_neg hcf]
        by_cases hs : env.attachScriptExists = true
        · rw [if_neg (not_not_intro hs)]
          simp [isLookupEv]
        · rw [if_pos hs]
          simp [isLookupEv]
    · intro hcf hs
      rw [if_neg (by rw [hcf]; exact Bool.false_ne_true), if_neg (not_not_intro hs)]
      rfl
  · intro rg wid rid env data h1 h2 hc h0
    rw [law_trace_eq, if_neg (by rw [h1]; exact Bool.false_ne_true),
      if_neg (by rw [h2]; exact Bool.false_ne_true), hc]
    simp only
    rw [if_pos h0]
    constructor
    · by_cases hcf : createStepFailed env.createResult = true
      · rw [if_pos hcf]
        simp
      · rw [if_neg hcf]
        simp
    · intro data2 hcf hc2 hs
      rw [if_neg (by rw [hcf]; exact Bool.false_ne_true), hc2]
      simp only
      rw [if_neg (not_not_intro hs)]
      rfl

theorem spec_C3_witness :
    WfEvent.create "log-analytics" ("rg1" ++ "-law") "eastus"
      ∈ (attach_diagnostic_settings (some "rg1") none (some "rid1")
          ⟨some ⟨0, []⟩, "raw", "created", some ⟨1, [⟨some "rg1-law", some "wid1"⟩]⟩,
            true, "attached"⟩).2 :=
  ((spec_C3_creation_and_requery.2 (some "rg1") none (some "rid1")
    ⟨some ⟨0, []⟩, "raw", "created", some ⟨1, [⟨some "rg1-law", some "wid1"⟩]⟩,
      true, "attached"⟩ ⟨0, []⟩
    (by decide) (by decide) rfl rfl).1)

/-! ## Resource Lookup classification (azure.py check_resource)

check_resource shells out and classifies the free-text output.  The command
and existence checks before the classification (blank group, unknown type,
missing script) return early error JSON; the classification of an arbitrary
output text, which C4 is about, is embedded here over the raw output
string. -/

/-- Greedy `\s*(\d+)` at the start of the text: a shorter whitespace prefix
leaves a whitespace head, never a digit, so only the maximal prefix can
match. -/
def matchDigits (t : List Char) : Option (List Char) :=
  let rest := t.dropWhile isSpace
  let digs := rest.takeWhile Char.isDigit
  if digs = [] then none else some digs

/-- Greedy `\s*([^,]+)` with backtracking, returning the captured group. -/
def matchNonComma : List Char → Option (List Char)
  | [] => none
  | c :: cs =>
    if isSpace c then
      match matchNonComma cs with
      | some g => some g
      | none => if c = ',' then none else some ((c :: cs).takeWhile (fun d => d ≠ ','))
    else if c = ',' then none else some ((c :: cs).takeWhile (fun d => d ≠ ','))

/-- `re.search` for a pattern that is a literal followed by a capturing
tail: the scan finds the leftmost occurrence of the literal whose tail
matches, resuming one character on when the tail fails. -/
def searchCap (lit : List Char) (tail : List Char → Option (List Char)) :
    List Char → Option (List Char)
  | [] => if headMatches lit [] then tail [] else none
  | t@(_ :: rest) =>
    if headMatches lit t then
      match tail (t.drop lit.length) with
      | some g => some g
      | none => searchCap lit tail rest
    else searchCap lit tail rest

/-- Decimal digits to Nat (`int` on a `\d+` capture). -/
def digitsToNat (l : List Char) : Nat :=
  l.foldl (fun a c => a * 10 + (c.toNat - 48)) 0

/-- `re.search(r'RESOURCE FOUND:\s*(.+)', result)` as a zero/one-element
name list (azure.py lines 345-351). -/
def foundNames (result : String) : List String :=
  match searchCap "RESOURCE FOUND:".data matchTail result.data with
  | some g => [⟨stripCL g⟩]
  | none => []

/-- `re.search(r'RESOURCE ID:\s*(.+)', result)` (azure.py lines 353-355). -/
def foundIds (result : String) : List String :=
  match searchCap "RESOURCE ID:".data matchTail result.data with
  | some g => [⟨stripCL g⟩]
  | none => []

/-- `re.search(r'COUNT:\s*(\d+)', result)` with default 1
(azure.py lines 347, 357-359). -/
def foundCount (result : String) : Nat :=
  match searchCap "COUNT:".data matchDigits result.data with
  | some ds => digitsToNat ds
  | none => 1

/-- The line loop of the MULTIPLE RESOURCES FOUND branch (azure.py lines
362-371): each line whose stripped text starts with `- Name:` contributes
its name (de-duplicated, output order) and, when present, its id (appended
whether or not the name was new, exactly as the source does). -/
def scanLines (lines : List (List Char)) (names ids : List String) :
    List String × List String :=
  match lines with
  | [] => (names, ids)
  | line :: rest =>
    if headMatches "- Name:".data (stripCL line) then
      match searchCap "Name:".data matchNonComma line with
      | some nm =>
        let name : String := ⟨stripCL nm⟩
        let names2 := if names.contains name then names else names ++ [name]
        let ids2 :=
          match searchCap "ID:".data matchTail line with
          | some idg => ids ++ [(⟨stripCL idg⟩ : String)]
          | none => ids
        scanLines rest names2 ids2
      | none => scanLines rest names ids
    else scanLines rest names ids

/-- The resources field: name/id pairs when any id was captured (zip
truncation as in Python), else name-only entries (azure.py lines 375, 384). -/
def mkResources (names ids : List String) : List (String × Option String) :=
  if ids ≠ [] then (names.zip ids).map (fun p => (p.1, some p.2))
  else names.map (fun n => (n, none))

/-- The four JSON result shapes of check_resource, one constructor per
return statement (azure.py lines 338-343, 373-379, 381-386, 388-393).
notFound and unparsed both carry count 0 and an empty resources list;
multiple alone carries the requires_selection field. -/
inductive CheckOutcome where
  | notFound (message : String)
  | multiple (count : Nat) (resources : List (String × Option String))
      (requiresSelection : Bool)
  | single (count : Nat) (resources : List (String × Option String))
  | unparsed (rawOutput : String)
deriving DecidableEq

/-- The output-classification of check_resource (azure.py lines 338-393),
over the raw text of the external check-resource command. -/
def check_classify (resource_group resource_type result : String) : CheckOutcome :=
  if strOccurs "RESOURCE NOT FOUND" result then
    .notFound ("No " ++ resource_type ++ " found in resource group '"
      ++ resource_group ++ "'")
  else if strOccurs "MULTIPLE RESOURCES FOUND" result then
    match scanLines (splitOnChar '\n' result.data) (foundNames result) (foundIds result) with
    | (names, ids) =>
      .multiple (foundCount result) (mkResources names ids)
        (decide (foundCount result > 1))
  else if foundNames result ≠ [] then
    .single (foundNames result).length
      (mkResources (foundNames result) (foundIds result))
  else .unparsed result

/-- The `count` field of the emitted JSON. -/
def outcomeCount : CheckOutcome → Nat
  | .notFound _ => 0
  | .multiple c _ _ => c
  | .single c _ => c
  | .unparsed _ => 0

/-- The `resources` field of the emitted JSON. -/
def outcomeResources : CheckOutcome → List (String × Option String)
  | .notFound _ => []
  | .multiple _ rs _ => rs
  | .single _ rs => rs
  | .unparsed _ => []

/-- Does the emitted JSON carry the requires_selection/prompt fields (the
multiple-found shape alone does)? -/
def multipleFlavored : CheckOutcome → Bool
  | .multiple _ _ _ => true
  | _ => false

/-- The not-found shape of C4: count 0 and empty resources (the unparsable
fallback emits exactly this data as well, with the raw output attached). -/
def ShapeNotFound (o : CheckOutcome) : Prop :=
  multipleFlavored o = false ∧ outcomeCount o = 0 ∧ outcomeResources o = []

/-- The single-found shape of C4: one name/id pair from the fixed-position
regex. -/
def ShapeSingle (o : CheckOutcome) : Prop :=
  multipleFlavored o = false ∧ outcomeCount o = 1 ∧ (outcomeResources o).length = 1

/-- The multiple-found shape of C4: the line-parsed list block. -/
def ShapeMultiple (o : CheckOutcome) : Prop :=
  multipleFlavored o = true

theorem foundNames_length (result : String) : (foundNames result).length ≤ 1 := by
  unfold foundNames
  cases searchCap "RESOURCE FOUND:".data matchTail result.data <;> simp

theorem mkResources_length_one (names ids : List String)
    (h : names.length = 1) : (mkResources names ids).length = 1 := by
  unfold mkResources
  rcases names with _ | ⟨n, _ | ⟨m, rest⟩⟩ <;> simp_all
  cases ids with
  | nil => simp
  | cons i is => simp [List.zip]

/-- C4: for every output text of the external check-resource command, the
classification lands in exactly one of the three result shapes — not-found
(count 0, empty resources; the unparsable fallback included), single found
(exactly one name/id pair, count 1), or multiple found (the line-parsed,
selection-flagged list) — so the classification is exhaustive and the three
shapes are mutually exclusive. -/
theorem spec_C4_classification_exhaustive_exclusive
    (resource_group resource_type result : String) :
    (ShapeNotFound (check_classify resource_group resource_type result)
      ∧ ¬ ShapeSingle (check_classify resource_group resource_type result)
      ∧ ¬ ShapeMultiple (check_classify resource_group resource_type result))
    ∨ (¬ ShapeNotFound (check_classify resource_group resource_type result)
      ∧ ShapeSingle (check_classify resource_group resource_type result)
      ∧ ¬ ShapeMultiple (check_classify resource_group resource_type result))
    ∨ (¬ ShapeNotFound (check_classify resource_group resource_type result)
      ∧ ¬ ShapeSingle (check_classify resource_group resource_type result)
      ∧ ShapeMultiple (check_classify resource_group resource_type result)) := by
  unfold check_classify
  by_cases h1 : strOccurs "RESOURCE NOT FOUND" result = true
  · rw [if_pos h1]
    left
    simp [ShapeNotFound, ShapeSingle, ShapeMultiple, multipleFlavored,
      outcomeCount, outcomeResources]
  · rw [if_neg h1]
    by_cases h2 : strOccurs "MULTIPLE RESOURCES FOUND" result = true
    · rw [if_pos h2]
      right; right
      rcases hs : scanLines (splitOnChar '\n' result.data) (foundNames result)
        (foundIds result) with ⟨names, ids⟩
      simp [ShapeNotFound, ShapeSingle, ShapeMultiple, multipleFlavored]
    · rw [if_neg h2]
      by_cases h3 : foundNames result ≠ []
      · rw [if_pos h3]
        right; left
        have hlen : (foundNames result).length = 1 := by
          have := foundNames_length result
          rcases hn : foundNames result with _ | ⟨x, xs⟩
          · exact absurd hn h3
          · rw [hn] at this
            simp at this
            simp [this]
        refine ⟨?_, ?_, ?_⟩
        · simp [ShapeNotFound, multipleFlavored, outcomeCount, hlen]
        · exact ⟨rfl, hlen, mkResources_length_one _ _ hlen⟩
        · simp [ShapeMultiple, multipleFlavored]
      · rw [if_neg h3]
        left
        simp [ShapeNotFound, ShapeSingle, ShapeMultiple, multipleFlavored,
          outcomeCount, outcomeResources]

/-! ## External Command Runner (utils.py run_command) -/

/-- AZURE_ERROR_PATTERNS (utils.py lines 20-91): code, message, cause,
solutions, in source (dict-insertion) order. -/
def AZURE_ERROR_PATTERNS : List (String × String × String × List String) := [
  ("AuthorizationFailed", "⚠️ AUTHORIZATION ERROR", "You don't have sufficient permissions to perform this action.",
    ["Run 'az login' to refresh your credentials", "Verify you have 'Contributor' or 'Owner' role on the resource group", "Check if your token has expired (tokens expire after ~1 hour)", "Contact your Azure admin to grant required permissions"]),
  ("ResourceNotFound", "⚠️ RESOURCE NOT FOUND", "The specified resource does not exist.",
    ["Verify the resource name and resource group are correct", "Check if the resource was deleted or moved", "Ensure you're using the correct subscription"]),
  ("SubscriptionNotFound", "⚠️ SUBSCRIPTION NOT FOUND", "The specified subscription is not accessible.",
    ["Run 'az account list' to see available subscriptions", "Run 'az account set --subscription <id>' to switch subscriptions", "Verify you have access to the subscription"]),
  ("InvalidResourceType", "⚠️ INVALID RESOURCE TYPE", "The resource type specified is not valid.",
    ["Check the resource type spelling", "Verify the API version supports this resource type"]),
  ("QuotaExceeded", "⚠️ QUOTA EXCEEDED", "You've reached the limit for this resource type in the region.",
    ["Try a different Azure region", "Request a quota increase via Azure portal", "Delete unused resources to free up quota"]),
  ("Conflict", "⚠️ RESOURCE CONFLICT", "A resource with this name already exists or is in a conflicting state.",
    ["Use a different resource name", "Wait for any pending operations to complete", "Delete the existing resource if it's no longer needed"]),
  ("InvalidParameter", "⚠️ INVALID PARAMETER", "One or more parameters are invalid.",
    ["Review the parameter values for typos", "Check parameter constraints (length, allowed values, format)"]),
  ("PrivateEndpointCannotBeCreatedInSubnet", "⚠️ PRIVATE ENDPOINT SUBNET ERROR", "The subnet cannot host private endpoints.",
    ["Ensure 'privateEndpointNetworkPolicies' is set to 'Disabled' on the subnet", "Use a different subnet designated for private endpoints"])]

/-- The `"".join`-style solutions block (utils.py line 250). -/
def solutionsText (solutions : List String) : String :=
  strJoin "\n" (solutions.map (fun s => "  • " ++ s))

/-- `"═" * 78`, the box rule of the formatted Azure-error block. -/
def boxRule : String := ⟨List.replicate 78 '═'⟩

/-- `"═" * 59`, the stderr error-details separator (utils.py line 288). -/
def sepRule : String := ⟨List.replicate 59 '═'⟩

/-- The formatted block of _detect_azure_error (utils.py lines 251-260). -/
def formatAzureError (message cause : String) (solutions : List String) : String :=
  "\n╔" ++ boxRule ++ "╗\n║ " ++ message ++ "\n╠" ++ boxRule ++ "╣\n║ Cause: "
    ++ cause ++ "\n║\n║ Solutions:\n" ++ solutionsText solutions
    ++ "\n╚" ++ boxRule ++ "╝\n"

/-- _detect_azure_error (utils.py lines 243-261): the first pattern whose
code occurs in the output, formatted; None when no pattern matches. -/
def detectAzureError (output : String) : Option String :=
  match AZURE_ERROR_PATTERNS.find? (fun p => strOccurs p.1 output) with
  | some p => some (formatAzureError p.2.1 p.2.2.1 p.2.2.2)
  | none => none

/-- The stderr failure-keyword test (utils.py line 287). -/
def stderrFailureWord (stderrStripped : String) : Bool :=
  ["error", "failed", "exception", "cannot", "unauthorized", "forbidden",
    "not found"].any (fun w => strOccurs w (pyLower stderrStripped))

/-- The ERROR DETAILS block wrapped around a failing stderr
(utils.py line 288). -/
def errDetailsBlock (stderrStripped : String) : String :=
  "\n" ++ sepRule ++ "\n✗ ERROR DETAILS:\n" ++ sepRule ++ "\n" ++ stderrStripped

/-- The hard timeout subprocess.run is invoked with (utils.py line 275). -/
def commandTimeoutSeconds : Nat := 600

/-- The observable outcome of the subprocess call inside run_command: normal
completion (with captured stdout, stderr, exit code), the 600-second
timeout (subprocess.TimeoutExpired), or any spawn/execution exception with
its message and type name. -/
inductive ProcOutcome where
  | completed (stdout stderr : String) (returncode : Int)
  | timedOut
  | spawnError (msg typeName : String)

/-- output_parts after the stdout append (utils.py lines 282-283). -/
def parts0Of (so : String) : List String :=
  if pyStrip so ≠ "" then [pyStrip so] else []

/-- output_parts after the stderr append (utils.py lines 285-290). -/
def parts1Of (so se : String) (rc : Int) : List String :=
  if pyStrip se ≠ "" then
    (if rc ≠ 0 ∨ stderrFailureWord (pyStrip se) = true then
      parts0Of so ++ [errDetailsBlock (pyStrip se)]
    else parts0Of so ++ [pyStrip se])
  else parts0Of so

/-- output_parts after the Azure-error append (utils.py lines 292-293);
full_output is `f"{stdout}\n{stderr}"` (line 278). -/
def parts2Of (so se : String) (rc : Int) : List String :=
  match detectAzureError (so ++ "\n" ++ se) with
  | some a => parts1Of so se rc ++ [a]
  | none => parts1Of so se rc

/-- output_parts after the exit-code append (utils.py lines 295-296). -/
def completedParts (so se : String) (rc : Int) : List String :=
  if rc ≠ 0 then parts2Of so se rc ++ ["\n[Exit Code: " ++ toString rc ++ "]"]
  else parts2Of so se rc

/-- run_command (utils.py lines 264-303): a total function of the command
and the process outcome — every failure kind is returned as text, nothing
is raised to the caller. -/
def run_command (command : List String) (outcome : ProcOutcome) : String :=
  match outcome with
  | .completed so se rc =>
    if completedParts so se rc ≠ [] then strJoin "\n" (completedParts so se rc)
    else "Command completed with no output"
  | .timedOut =>
    "✗ ERROR: Command timed out after 600 seconds\n\nCommand: "
      ++ strJoin " " command
      ++ "\n\nThis usually indicates a hanging process or very slow operation."
  | .spawnError msg typeName =>
    "✗ EXECUTION ERROR:\n\nCommand: " ++ strJoin " " command
      ++ "\n\nError: " ++ msg ++ "\nError Type: " ++ typeName

/-! ## Substring decomposition lemmas -/

theorem headMatches_iff_exists {n : List Char} : ∀ {h : List Char},
    headMatches n h = true ↔ ∃ r, h = n ++ r := by
  induction n with
  | nil => intro h; simp [headMatches]
  | cons a as ih =>
    intro h
    cases h with
    | nil =>
      simp only [headMatches]
      constructor
      · intro hf; cases hf
      · rintro ⟨r, hr⟩; cases hr
    | cons b bs =>
      unfold headMatches
      rw [Bool.and_eq_true]
      constructor
      · rintro ⟨hab, hm⟩
        obtain ⟨r, hr⟩ := ih.mp hm
        exact ⟨r, by rw [List.cons_append, ← of_decide_eq_true hab, hr]⟩
      · rintro ⟨r, hr⟩
        rw [List.cons_append] at hr
        injection hr with h1 h2
        exact ⟨decide_eq_true h1.symm, ih.mpr ⟨r, h2⟩⟩

theorem occursIn_iff_parts {n : List Char} : ∀ {h : List Char},
    occursIn n h = true ↔ ∃ l r, h = l ++ n ++ r := by
  intro h
  induction h with
  | nil =>
    unfold occursIn
    rw [headMatches_iff_exists]
    constructor
    · rintro ⟨r, hr⟩
      exact ⟨[], r, by simpa using hr⟩
    · rintro ⟨l, r, hr⟩
      have := hr.symm
      simp only [List.append_assoc, List.append_eq_nil] at this
      exact ⟨[], by simp [this.1, this.2.1, this.2.2]⟩
  | cons b bs ih =>
    unfold occursIn
    rw [Bool.or_eq_true, headMatches_iff_exists, ih]
    constructor
    · rintro (⟨r, hr⟩ | ⟨l, r, hr⟩)
      · exact ⟨[], r, by simpa using hr⟩
      · exact ⟨b :: l, r, by simp [hr]⟩
    · rintro ⟨l, r, hr⟩
      cases l with
      | nil => exact Or.inl ⟨r, by simpa using hr⟩
      | cons c cl =>
        right
        rw [List.cons_append, List.cons_append] at hr
        injection hr with h1 h2
        exact ⟨cl, r, h2⟩

theorem occursIn_trans {a b c : List Char} (h1 : occursIn a b = true)
    (h2 : occursIn b c = true) : occursIn a c = true := by
  obtain ⟨l1, r1, e1⟩ := occursIn_iff_parts.mp h1
  obtain ⟨l2, r2, e2⟩ := occursIn_iff_parts.mp h2
  subst e1
  subst e2
  refine occursIn_iff_parts.mpr ⟨l2 ++ l1, r1 ++ r2, ?_⟩
  simp [List.append_assoc]

theorem data_append (a b : String) : (a ++ b).data = a.data ++ b.data := by
  cases a
  cases b
  rfl

theorem strJoin_mem_occurs {p sep : String} :
    ∀ {parts : List String}, p ∈ parts →
      occursIn p.data (strJoin sep parts).data = true := by
  intro parts
  induction parts with
  | nil => intro h; cases h
  | cons x xs ih =>
    intro hmem
    rcases List.mem_cons.mp hmem with h | h
    · subst h
      cases xs with
      | nil =>
        exact occursIn_iff_parts.mpr ⟨[], [], by simp [strJoin]⟩
      | cons y ys =>
        refine occursIn_iff_parts.mpr ⟨[], (sep ++ strJoin sep (y :: ys)).data, ?_⟩
        rw [show strJoin sep (p :: y :: ys) = p ++ sep ++ strJoin sep (y :: ys) from rfl]
        simp [data_append, List.append_assoc]
    · cases xs with
      | nil => cases h
      | cons y ys =>
        obtain ⟨l, r, e⟩ := occursIn_iff_parts.mp (ih h)
        refine occursIn_iff_parts.mpr ⟨(x ++ sep).data ++ l, r, ?_⟩
        rw [show strJoin sep (x :: y :: ys) = x ++ sep ++ strJoin sep (y :: ys) from rfl]
        simp [data_append, e, List.append_assoc]

/-- C7: run_command is a total function of the command and the observable
process outcome — nothing is raised to the caller.  The timeout is the hard
600 seconds and yields the fixed timeout-error text; a spawn/execution
failure yields the execution-error text; a completed run with non-zero exit
code returns text carrying the `[Exit Code: N]` marker. -/
theorem spec_C7_run_command_errors_as_text :
    commandTimeoutSeconds = 600
    ∧ (∀ command : List String, run_command command .timedOut =
        "✗ ERROR: Command timed out after 600 seconds\n\nCommand: "
          ++ strJoin " " command
          ++ "\n\nThis usually indicates a hanging process or very slow operation.")
    ∧ (∀ (command : List String) (m t : String),
        run_command command (.spawnError m t) =
          "✗ EXECUTION ERROR:\n\nCommand: " ++ strJoin " " command
            ++ "\n\nError: " ++ m ++ "\nError Type: " ++ t)
    ∧ (∀ (command : List String) (so se : String) (rc : Int), rc ≠ 0 →
        strOccurs ("[Exit Code: " ++ toString rc ++ "]")
          (run_command command (.completed so se rc)) = true) := by
  refine ⟨rfl, fun _ => rfl, fun _ _ _ => rfl, ?_⟩
  intro command so se rc hrc
  have hparts : completedParts so se rc
      = parts2Of so se rc ++ ["\n[Exit Code: " ++ toString rc ++ "]"] := by
    unfold completedParts
    rw [if_pos hrc]
  unfold run_command strOccurs
  simp only
  rw [hparts, if_pos (by simp)]
  have hpartmem : ("\n[Exit Code: " ++ toString rc ++ "]")
      ∈ parts2Of so se rc ++ ["\n[Exit Code: " ++ toString rc ++ "]"] := by simp
  have hjoin := @strJoin_mem_occurs _ "\n" _ hpartmem
  have hneedle : occursIn ("[Exit Code: " ++ toString rc ++ "]").data
      ("\n[Exit Code: " ++ toString rc ++ "]").data = true := by
    refine occursIn_iff_parts.mpr ⟨['\n'], [], ?_⟩
    simp only [data_append, List.append_nil, List.append_assoc]
    rfl
  exact occursIn_trans hneedle hjoin

theorem spec_C7_witness :
    strOccurs ("[Exit Code: " ++ toString (1 : Int) ++ "]")
      (run_command ["az"] (.completed "" "" 1)) = true :=
  spec_C7_run_command_errors_as_text.2.2.2 ["az"] "" "" 1 (by decide)

/-! ## RBAC role assignment (azure.py assign_rbac_role) -/

/-- The policy-violation explanation of assign_rbac_role
(azure.py lines 742-778). -/
def blockedText (ptn : String) : String :=
  "RBAC Role Assignment Blocked\n\nDirect RBAC role assignments to "
    ++ ptn ++
  "s are not recommended.\n\nSecurity Best Practice:\n   Azure RBAC roles should NOT be assigned directly to Users or Groups.\n   Instead, use Privileged Identity Management (PIM) for user access,\n   or Managed Identities/Service Principals for application access.\n\nRecommended Alternatives:\n\n   For User Access - Use Azure PIM (Privileged Identity Management):\n      - PIM provides just-in-time (JIT) privileged access\n      - Users activate roles only when needed, with time-limited access\n      - Requires approval workflows and audit trails\n      - Reduces standing access and attack surface\n      - Configure PIM at: Azure Portal > Entra ID > Privileged Identity Management\n   \n   For Application/Service Access - Use Managed Identity:\n      - Attach a Managed Identity to your compute resource (VM, App Service, Function, etc.)\n      - Assign the RBAC role to the Managed Identity's Principal ID\n      - No credentials to manage or rotate\n   \n   For External Apps/Automation - Use Service Principal:\n      - Create an App Registration in Entra ID\n      - Assign the RBAC role to the Service Principal's Object ID\n\nWhy Direct User/Group RBAC is Not Recommended:\n   - Creates permanent standing access (security risk)\n   - No activation workflow or time limits\n   - Harder to audit and review\n   - Violates principle of least privilege\n\nTo Proceed:\n   - For user access: Configure PIM roles in Azure Portal instead\n   - For application access: Provide a Managed Identity Principal ID or Service Principal Object ID,\n     and set principal_type to 'ServicePrincipal' or 'ManagedIdentity'"

/-- The missing-parameters list of assign_rbac_role
(azure.py lines 722-730): Python falsiness of each argument. -/
def rbacMissing (scope : String) (object_ids role_names : List String)
    (principal_type : String) : List String :=
  (if scope = "" then ["scope (e.g., /subscriptions/<sub-id>/resourceGroups/<rg-name>)"] else [])
  ++ (if object_ids = [] then ["object_ids (list of Object IDs / Principal IDs)"] else [])
  ++ (if role_names = [] then ["role_names (list of role names, e.g., 'Storage Blob Data Contributor')"] else [])
  ++ (if principal_type = "" then ["principal_type (ServicePrincipal or ManagedIdentity)"] else [])

/-- assign_rbac_role (azure.py lines 703-811).  The returned Bool records
whether the external script was invoked (run_powershell_script returns text
and never raises, so the try/except fallback text is dead code and the
invoked result is the script output). -/
def assign_rbac_role (scope : String) (object_ids role_names : List String)
    (principal_type : String) (scriptExists : Bool) (scriptResult : String) :
    String × Bool :=
  if rbacMissing scope object_ids role_names principal_type ≠ [] then
    ("Missing required parameters:\n" ++ strJoin "\n"
      ((rbacMissing scope object_ids role_names principal_type).map (fun m => "  - " ++ m)),
      false)
  else
    if pyStrip principal_type = "User" ∨ pyStrip principal_type = "Group" then
      (blockedText (pyStrip principal_type), false)
    else if ¬ (pyStrip principal_type = "ServicePrincipal"
        ∨ pyStrip principal_type = "ManagedIdentity") then
      ("Invalid principal_type: '" ++ principal_type
        ++ "'\n\nAllowed values: ServicePrincipal, ManagedIdentity\n\nNote: User and Group assignments are blocked by policy. Use Managed Identity or Service Principal instead.",
        false)
    else if ¬ headMatches "/subscriptions/".data scope.data then
      ("Invalid scope format. Scope must start with '/subscriptions/<subscription-id>/...'\n\nExamples:\n  - Subscription: /subscriptions/<sub-id>\n  - Resource Group: /subscriptions/<sub-id>/resourceGroups/<rg-name>\n  - Resource: /subscriptions/<sub-id>/resourceGroups/<rg-name>/providers/<provider>/<resource-type>/<resource-name>",
        false)
    else if ¬ scriptExists then
      ("Error: assign-azure-rbac.ps1 not found", false)
    else (scriptResult, true)

/-- C8 counterexample: a call with principal_type 'User' but an empty scope
returns the missing-parameters message, not the policy-violation
explanation with recommended alternatives (though still without any external
invocation).  This refutes the claim for calls whose other required
arguments are missing. -/
theorem spec_C8_counterexample :
    (assign_rbac_role "" ["oid1"] ["Reader"] "User" true "res").1
      = "Missing required parameters:\n  - scope (e.g., /subscriptions/<sub-id>/resourceGroups/<rg-name>)"
    ∧ strOccurs "Recommended Alternatives"
        (assign_rbac_role "" ["oid1"] ["Reader"] "User" true "res").1 = false
    ∧ (assign_rbac_role "" ["oid1"] ["Reader"] "User" true "res").2 = false := by
  refine ⟨rfl, by decide, rfl⟩

set_option maxRecDepth 40000 in
/-- C8 (amended): a call whose principal_type strips to 'User' or 'Group'
never invokes the external script, whatever the other arguments; and when
the other required arguments are supplied (non-empty scope, object_ids,
role_names), such a call returns exactly the policy-violation explanation,
which carries the recommended alternatives. -/
theorem spec_C8_user_group_blocked :
    (∀ (scope : String) (object_ids role_names : List String)
        (principal_type : String) (scriptExists : Bool) (scriptResult : String),
        pyStrip principal_type = "User" ∨ pyStrip principal_type = "Group" →
        (assign_rbac_role scope object_ids role_names principal_type
          scriptExists scriptResult).2 = false)
    ∧ (∀ (scope : String) (object_ids role_names : List String)
        (principal_type : String) (scriptExists : Bool) (scriptResult : String),
        scope ≠ "" → object_ids ≠ [] → role_names ≠ [] →
        pyStrip principal_type = "User" ∨ pyStrip principal_type = "Group" →
        (assign_rbac_role scope object_ids role_names principal_type
            scriptExists scriptResult).1 = blockedText (pyStrip principal_type)
        ∧ strOccurs "Recommended Alternatives"
            (assign_rbac_role scope object_ids role_names principal_type
              scriptExists scriptResult).1 = true) := by
  have hblocked : ∀ (scope : String) (object_ids role_names : List String)
      (principal_type : String) (scriptExists : Bool) (scriptResult : String),
      scope ≠ "" → object_ids ≠ [] → role_names ≠ [] →
      pyStrip principal_type = "User" ∨ pyStrip principal_type = "Group" →
      (assign_rbac_role scope object_ids role_names principal_type
          scriptExists scriptResult).1 = blockedText (pyStrip principal_type)
      ∧ (assign_rbac_role scope object_ids role_names principal_type
          scriptExists scriptResult).2 = false := by
    intro scope oids rns pt se sr hs ho hr hug
    have hpt : pt ≠ "" := by
      intro he
      subst he
      rcases hug with h | h <;> exact absurd h (by decide)
    have hmiss : rbacMissing scope oids rns pt = [] := by
      unfold rbacMissing
      rw [if_neg hs, if_neg ho, if_neg hr, if_neg hpt]
      rfl
    unfold assign_rbac_role
    rw [if_neg (show ¬(rbacMissing scope oids rns pt ≠ []) from by
      rw [hmiss]; exact not_not_intro rfl)]
    rw [if_pos hug]
    exact ⟨rfl, rfl⟩
  constructor
  · intro scope oids rns pt se sr hug
    by_cases hm : rbacMissing scope oids rns pt ≠ []
    · unfold assign_rbac_role
      rw [if_pos hm]
    · unfold assign_rbac_role
      rw [if_neg hm, if_pos hug]
  · intro scope oids rns pt se sr hs ho hr hug
    obtain ⟨heq, _⟩ := hblocked scope oids rns pt se sr hs ho hr hug
    refine ⟨heq, ?_⟩
    rw [heq]
    rcases hug with h | h <;> rw [h] <;> decide

theorem spec_C8_witness :
    (assign_rbac_role "/subscriptions/s1" ["oid1"] ["Reader"] "User" true "res").2 = false :=
  spec_C8_user_group_blocked.1 "/subscriptions/s1" ["oid1"] ["Reader"] "User" true "res"
    (Or.inl (by decide))

end AzureAgent
